import Mathlib

/-!
# Verification of the WhatsApp conversational-assistant core

A shallow embedding, in Lean 4, of the conversation state machine and
message-routing core of the repository:

* `handlers/state_manager.py`  — per-user session store with expiry timers
* `handlers/message_handler.py` — rate limiting, in-flight markers, routing
* `handlers/response_builder.py` — response formatting
* `utils/validators.py` — input validation
* `consultas_automaticas.py` — regex-based intent detection and automatic
  part queries

Python dictionaries are modelled as insertion-ordered association lists
(assignment replaces in place, fresh keys are appended), `time.time()` values
as rationals, `threading.Timer` objects as records carrying `cancelled` /
`fired` flags, and the database / AI collaborators as explicit function
parameters (oracles).  Dynamic-typing failures (`AttributeError`) are modelled
with `Except`.
-/

namespace Avans

/-- First result of `f` over a list, in order (models Python loops that
return on the first hit). -/
def firstSome (f : α → Option β) : List α → Option β
  | [] => none
  | a :: as => (f a).orElse fun _ => firstSome f as

theorem firstSome_nil (f : α → Option β) : firstSome f [] = none := rfl

theorem firstSome_cons (f : α → Option β) (a : α) (as : List α) :
    firstSome f (a :: as) = ((f a).orElse fun _ => firstSome f as) := rfl

/-! ## Association lists (Python `dict` model)

A Python `dict` keeps insertion order; assignment to an existing key replaces
the value in place, assignment to a fresh key appends. -/

/-- `d.get(k)` on a Python dict. -/
def alLookup (l : List (String × α)) (k : String) : Option α :=
  match l with
  | [] => none
  | (k0, v0) :: rest => if k0 = k then some v0 else alLookup rest k

/-- `d[k] = v` on a Python dict. -/
def alUpdate (l : List (String × α)) (k : String) (v : α) : List (String × α) :=
  match l with
  | [] => [(k, v)]
  | (k0, v0) :: rest => if k0 = k then (k, v) :: rest else (k0, v0) :: alUpdate rest k v

/-- Keys of an association list are pairwise distinct. -/
def alNodupKeys (l : List (String × α)) : Prop :=
  (l.map Prod.fst).Nodup

theorem alLookup_update_self (l : List (String × α)) (k : String) (v : α) :
    alLookup (alUpdate l k v) k = some v := by
  induction l with
  | nil => simp [alLookup, alUpdate]
  | cons hd tl ih =>
    obtain ⟨k0, v0⟩ := hd
    by_cases h : k0 = k <;> simp [alLookup, alUpdate, h, ih]

theorem alLookup_update_ne (l : List (String × α)) (k k' : String) (v : α)
    (h : k ≠ k') : alLookup (alUpdate l k v) k' = alLookup l k' := by
  induction l with
  | nil => simp [alLookup, alUpdate, h]
  | cons hd tl ih =>
    obtain ⟨k0, v0⟩ := hd
    by_cases h0 : k0 = k
    · subst h0
      simp [alLookup, alUpdate, h]
    · simp [alLookup, alUpdate, h0, ih]

theorem alUpdate_mem_keys (l : List (String × α)) (k k0 : String) (v : α)
    (h : k0 ∈ (alUpdate l k v).map Prod.fst) : k0 = k ∨ k0 ∈ l.map Prod.fst := by
  induction l with
  | nil =>
    rw [show alUpdate ([] : List (String × α)) k v = [(k, v)] from rfl,
      List.map_cons] at h
    rcases List.mem_cons.mp h with h | h
    · exact Or.inl h
    · exact absurd h (List.not_mem_nil k0)
  | cons hd tl ih =>
    obtain ⟨k2, v2⟩ := hd
    by_cases h2 : k2 = k
    · have e : alUpdate ((k2, v2) :: tl) k v = (k, v) :: tl := by
        simp [alUpdate, h2]
      rw [e, List.map_cons] at h
      rcases List.mem_cons.mp h with h | h
      · exact Or.inl h
      · exact Or.inr (by rw [List.map_cons]; exact List.mem_cons.mpr (Or.inr h))
    · have e : alUpdate ((k2, v2) :: tl) k v = (k2, v2) :: alUpdate tl k v := by
        simp [alUpdate, h2]
      rw [e, List.map_cons] at h
      rcases List.mem_cons.mp h with h | h
      · exact Or.inr (by rw [List.map_cons]; exact List.mem_cons.mpr (Or.inl h))
      · rcases ih h with h3 | h3
        · exact Or.inl h3
        · exact Or.inr (by rw [List.map_cons]; exact List.mem_cons.mpr (Or.inr h3))

theorem alNodupKeys_update (l : List (String × α)) (k : String) (v : α)
    (h : alNodupKeys l) : alNodupKeys (alUpdate l k v) := by
  induction l with
  | nil => simp [alNodupKeys, alUpdate]
  | cons hd tl ih =>
    obtain ⟨k0, v0⟩ := hd
    simp only [alNodupKeys, List.map_cons, List.nodup_cons] at h
    by_cases h0 : k0 = k
    · subst h0
      simpa [alNodupKeys, alUpdate] using h
    · have htl := ih h.2
      simp only [alNodupKeys, alUpdate, h0, if_false, List.map_cons, List.nodup_cons]
      refine ⟨?_, htl⟩
      intro hmem
      rcases alUpdate_mem_keys tl k k0 v hmem with h3 | h3
      · exact h0 h3
      · exact h.1 h3

/-! ## Python string primitives -/

/-- Characters stripped by Python `str.strip()` (ASCII whitespace). -/
def pyIsSpace (c : Char) : Bool :=
  c = ' ' || c = '\t' || c = '\n' || c = '\x0d' || c = '\x0b' || c = '\x0c'

/-- Python `str.strip()`. -/
def pyStrip (s : String) : String :=
  ⟨(s.data.dropWhile pyIsSpace).reverse.dropWhile pyIsSpace |>.reverse⟩

/-- Python `str.lower()` (ASCII model; the accented letters appearing in this
code base are already lowercase in every pattern literal). -/
def pyLower (s : String) : String := ⟨s.data.map Char.toLower⟩

/-- Python `str.isdigit()` restricted to ASCII decimal digits (the only digits
relevant to the order-number flow). -/
def pyIsdigit (s : String) : Bool :=
  ¬ s.data.isEmpty && s.data.all Char.isDigit

/-- Numeric value of a digit string: Python `int(s)` on an `isdigit` string. -/
def natOfDigits (s : String) : Nat :=
  s.data.foldl (fun acc c => 10 * acc + (c.toNat - '0'.toNat)) 0

/-- Python `int(text)` as used on a validated order number (`int` itself strips
surrounding whitespace). -/
def pyInt (s : String) : Nat := natOfDigits (pyStrip s)

/-- Python `sub in s` (substring containment). -/
def pyContains (s sub : String) : Bool :=
  (List.range (s.data.length + 1)).any fun i => sub.data.isPrefixOf (s.data.drop i)

/-- Python `s.startswith(pre)`. -/
def pyStartswith (s pre : String) : Bool :=
  pre.data.isPrefixOf s.data

/-! ## `handlers/state_manager.py` — the Session Store

`UserState` is the `enum.Enum` of conversation states.  A `UserSession` mirrors
the `@dataclass` (its `timer` field holds an opaque handle to a
`threading.Timer`, here an index into the store's timer pool).  `threading`
timers are modelled explicitly: each `Timer(...)` ever started becomes a
`TimerRec` carrying its target user plus `cancelled` / `fired` flags; a timer
is *live* when it has been started and neither cancelled nor fired. -/

/-- `UserState(Enum)` from `state_manager.py`. -/
inductive UserState where
  | idle
  | awaiting_part_search
  | awaiting_status_search
  | awaiting_order_number
  | post_consultation
  | post_status
  | post_order
deriving DecidableEq, Repr

/-- `UserSession` dataclass.  Session `data` values are modelled as strings
(the router treats them as opaque). -/
structure UserSession where
  state : UserState := .idle
  data : List (String × String) := []
  last_interaction : ℚ := 0
  timer : Option Nat := none
deriving DecidableEq, Repr

/-- One `threading.Timer` object created by `set_user_state`. -/
structure TimerRec where
  user : String
  cancelled : Bool
  fired : Bool
deriving DecidableEq, Repr

/-- The mutable state of a `StateManager` (`self._sessions`) together with the
pool of every timer it ever started. -/
structure StoreState where
  sessions : List (String × UserSession) := []
  timers : List TimerRec := []
deriving DecidableEq, Repr

def emptyStore : StoreState := {}

/-- `timer.cancel()` on the handle `id` (no-op on a dangling id). -/
def cancelTimer (ts : List TimerRec) (id : Nat) : List TimerRec :=
  match ts.get? id with
  | some t => ts.set id { t with cancelled := true }
  | none => ts

/-- `StateManager.get_user_state`: the stored state unless the session is
missing or `IDLE`. -/
def get_user_state (st : StoreState) (user_number : String) : Option UserState :=
  match alLookup st.sessions user_number with
  | some session => if session.state ≠ .idle then some session.state else none
  | none => none

/-- The timer-cancellation prologue of `set_user_state`: cancel the user's
current timer when the session exists and holds one. -/
def cancel_current_timer (st : StoreState) (user_number : String) : List TimerRec :=
  match alLookup st.sessions user_number with
  | some session =>
    match session.timer with
    | some id => cancelTimer st.timers id
    | none => st.timers
  | none => st.timers

/-- The session record built by `set_user_state` before the timer write:
fetch-or-default, overwrite `state`, refresh `last_interaction`, and merge
`data` key by key when non-empty (Python `if data: session.data.update(data)`). -/
def upserted_session (st : StoreState) (user_number : String) (state : UserState)
    (data : List (String × String)) (now : ℚ) : UserSession :=
  let session0 := (alLookup st.sessions user_number).getD {}
  let session1 := { session0 with state := state, last_interaction := now }
  if data.isEmpty then session1
  else { session1 with data := data.foldl (fun d kv => alUpdate d kv.1 kv.2) session1.data }

/-- `StateManager.set_user_state`: cancels the previous timer if present,
creates or updates the session (merging `data` when non-empty), updates
`last_interaction`, and starts a fresh expiry timer when the new state is not
`IDLE`.  Note that on an `IDLE` write the (cancelled) timer handle is left in
the session, exactly as in the source. -/
def set_user_state (st : StoreState) (user_number : String) (state : UserState)
    (data : List (String × String)) (now : ℚ) : StoreState :=
  let timers1 := cancel_current_timer st user_number
  let session2 := upserted_session st user_number state data now
  if state ≠ .idle then
    { sessions := alUpdate st.sessions user_number { session2 with timer := some timers1.length },
      timers := timers1 ++ [⟨user_number, false, false⟩] }
  else
    { sessions := alUpdate st.sessions user_number session2, timers := timers1 }

/-- `StateManager.clear_user_state`: cancels the timer and resets the session
to `IDLE` with empty data (no-op when the user has no session). -/
def clear_user_state (st : StoreState) (user_number : String) : StoreState :=
  match alLookup st.sessions user_number with
  | none => st
  | some session =>
    let timers1 :=
      match session.timer with
      | some id => cancelTimer st.timers id
      | none => st.timers
    let session1 := { session with state := UserState.idle, data := [], timer := none }
    { sessions := alUpdate st.sessions user_number session1, timers := timers1 }

/-- `StateManager.set_user_data`: inserts a default session when absent, then
stores `data[key] = value` and refreshes `last_interaction`. -/
def set_user_data (st : StoreState) (user_number key value : String) (now : ℚ) :
    StoreState :=
  let session0 := (alLookup st.sessions user_number).getD {}
  let session1 := { session0 with data := alUpdate session0.data key value, last_interaction := now }
  { st with sessions := alUpdate st.sessions user_number session1 }

/-- `StateManager.cleanup_inactive_sessions` (the periodic sweep): cancels the
timers of sessions whose `last_interaction` predates the cutoff and removes
those sessions. -/
def cleanup_inactive_sessions (st : StoreState) (now max_age_seconds : ℚ) :
    StoreState :=
  let cutoff := now - max_age_seconds
  let stale := st.sessions.filter fun e => e.2.last_interaction < cutoff
  { sessions := st.sessions.filter fun e => ¬ e.2.last_interaction < cutoff,
    timers := stale.foldl (fun ts e =>
      match e.2.timer with
      | some id => cancelTimer ts id
      | none => ts) st.timers }

/-- `StateManager._timeout_user` (the body of the expiry callback): clears the
user's state if a session exists. -/
def timeout_user (st : StoreState) (user_number : String) : StoreState :=
  match alLookup st.sessions user_number with
  | some _ => clear_user_state st user_number
  | none => st

/-- A `threading.Timer` coming due: if the timer was neither cancelled nor
already fired it fires (runs `_timeout_user` on its user); otherwise nothing
happens. -/
def fireTimer (st : StoreState) (id : Nat) : StoreState :=
  match st.timers.get? id with
  | some t =>
    if ¬ t.cancelled ∧ ¬ t.fired then
      timeout_user
        { st with timers := st.timers.set id { t with fired := true } } t.user
    else st
  | none => st

/-- The timer `id` is live: started, not cancelled, not fired. -/
def liveTimer (st : StoreState) (id : Nat) : Prop :=
  ∃ t, st.timers.get? id = some t ∧ t.cancelled = false ∧ t.fired = false

instance (st : StoreState) (id : Nat) : Decidable (liveTimer st id) := by
  unfold liveTimer
  match st.timers.get? id with
  | some t => exact decidable_of_iff (t.cancelled = false ∧ t.fired = false) (by simp)
  | none => exact decidable_of_iff False (by simp)

/-! ## `utils/validators.py` -/

/-- `validate_order_number`: strip, require all decimal digits, then require
the integer value to lie in `1 ..= 999999999`. -/
def validate_order_number (value : String) : Bool :=
  let str_value := pyStrip value
  if ¬ pyIsdigit str_value then false
  else
    let int_value := natOfDigits str_value
    decide (1 ≤ int_value) && decide (int_value ≤ 999999999)

/-! ## `handlers/response_builder.py`

`json.dumps(..., ensure_ascii=False)` output is reproduced literally (default
`", "` / `": "` separators; no character of the fixed payloads needs JSON
escaping).  `\x7b`/`\x7d` denote the literal braces. -/

def jstr (s : String) : String := "\"" ++ s ++ "\""

def jsonButton (id title : String) : String :=
  "\x7b" ++ jstr "type" ++ ": " ++ jstr "reply" ++ ", " ++ jstr "reply" ++ ": " ++
    "\x7b" ++ jstr "id" ++ ": " ++ jstr id ++ ", " ++ jstr "title" ++ ": " ++
    jstr title ++ "\x7d" ++ "\x7d"

/-- `ResponseBuilder.build_main_menu` (interactive payload with at most three
reply buttons `menubtn1..3`, button titles truncated to 20 characters). -/
def build_main_menu (title : String) (options : List String) (footer : String) :
    String :=
  let buttons := (options.take 3).enum.map fun p =>
    jsonButton ("menubtn" ++ toString (p.1 + 1)) (p.2.take 20)
  "\x7b" ++ jstr "messaging_product" ++ ": " ++ jstr "whatsapp" ++ ", " ++
    jstr "recipient_type" ++ ": " ++ jstr "individual" ++ ", " ++
    jstr "type" ++ ": " ++ jstr "interactive" ++ ", " ++
    jstr "interactive" ++ ": " ++ "\x7b" ++
      jstr "type" ++ ": " ++ jstr "button" ++ ", " ++
      jstr "body" ++ ": " ++ "\x7b" ++ jstr "text" ++ ": " ++ jstr title ++ "\x7d" ++ ", " ++
      jstr "footer" ++ ": " ++ "\x7b" ++ jstr "text" ++ ": " ++ jstr footer ++ "\x7d" ++ ", " ++
      jstr "action" ++ ": " ++ "\x7b" ++ jstr "buttons" ++ ": " ++
        "[" ++ String.intercalate ", " buttons ++ "]" ++ "\x7d" ++
    "\x7d" ++ "\x7d"

/-- `ResponseBuilder.build_yes_no_question` (Sí/No reply-button payload). -/
def build_yes_no_question (question context : String) : String :=
  "\x7b" ++ jstr "messaging_product" ++ ": " ++ jstr "whatsapp" ++ ", " ++
    jstr "recipient_type" ++ ": " ++ jstr "individual" ++ ", " ++
    jstr "type" ++ ": " ++ jstr "interactive" ++ ", " ++
    jstr "interactive" ++ ": " ++ "\x7b" ++
      jstr "type" ++ ": " ++ jstr "button" ++ ", " ++
      jstr "body" ++ ": " ++ "\x7b" ++ jstr "text" ++ ": " ++ jstr question ++ "\x7d" ++ ", " ++
      jstr "footer" ++ ": " ++ "\x7b" ++ jstr "text" ++ ": " ++ jstr "Equipo AVANS" ++ "\x7d" ++ ", " ++
      jstr "action" ++ ": " ++ "\x7b" ++ jstr "buttons" ++ ": " ++
        "[" ++ String.intercalate ", "
          [jsonButton (context ++ "_yes") "Sí", jsonButton (context ++ "_no") "No"] ++
        "]" ++ "\x7d" ++
    "\x7d" ++ "\x7d"

/-- One per-warehouse availability row (`bodega`, `cantidad`) as returned by
`DatabaseService._get_part_availability`. -/
structure AvailRec where
  bodega : String
  cantidad : Int
deriving DecidableEq, Repr

/-- One part record as returned by `DatabaseService.search_parts` (already
enriched with its availability rows). -/
structure PartRec where
  id : Nat
  ItemName : String
  ItemCode : String
  availability : List AvailRec
deriving DecidableEq, Repr

/-- Status payload attached by `DatabaseService.search_parts_for_status`. -/
structure StatusInfo where
  ultima_etapa : String
  fecha_actualizacion : String
deriving DecidableEq, Repr

/-- One part record enriched with status information. -/
structure StatusPartRec where
  id : Nat
  ItemName : String
  ItemCode : String
  status : Option StatusInfo
deriving DecidableEq, Repr

/-- Order record (`avans_ordr_accesos` row). -/
structure OrderData where
  CardName : String
  PaidToDate : String
  OINVToDate : String
  ODLNToDate : String
deriving DecidableEq, Repr

/-- `ResponseBuilder._format_single_part`. -/
def format_single_part (part : PartRec) : String :=
  let message := "📦 *" ++ part.ItemName ++ "*\n" ++
    "🔢 *Código:* `" ++ part.ItemCode ++ "`\n"
  let message :=
    if ¬ part.availability.isEmpty then
      message ++ "\nℹ️ *Disponibilidad:*\n" ++
        String.join (part.availability.map fun item =>
          "• " ++ item.bodega ++ ": " ++ toString item.cantidad ++ " unidades\n")
    else
      message ++ "\n⚠️ Sin stock disponible\n"
  pyStrip message

/-- `ResponseBuilder._format_part_summary` (name truncated past 30 chars). -/
def format_part_summary (part : PartRec) (index : Nat) : String :=
  let name := if part.ItemName.length > 30 then part.ItemName.take 27 ++ "..." else part.ItemName
  toString index ++ ". *" ++ name ++ "* (`" ++ part.ItemCode ++ "`)"

/-- `ResponseBuilder.build_parts_response`: message shape selected by result
cardinality (0 / 1 / 2–5 / more than 5). -/
def build_parts_response (parts : List PartRec) : List String :=
  match parts with
  | [] => ["⚠️ No se encontraron piezas."]
  | [part] => [format_single_part part]
  | _ =>
    if parts.length ≤ 5 then
      let message := "🔍 *Piezas encontradas:*\n\n" ++
        String.join (parts.enum.map fun p => format_part_summary p.2 (p.1 + 1) ++ "\n\n")
      [pyStrip message]
    else
      let message := "🔍 Encontré " ++ toString parts.length ++ " piezas. " ++
        "Aquí están las primeras 5:\n\n" ++
        String.join ((parts.take 5).enum.map fun p => format_part_summary p.2 (p.1 + 1) ++ "\n\n") ++
        "💡 *Sugerencia:* Especifica más detalles para resultados más precisos."
      [message]

/-- `ResponseBuilder._format_part_status`. -/
def format_part_status (part : StatusPartRec) : String :=
  let message := "📦 *" ++ part.ItemName ++ "*\n" ++
    "🔢 *Código:* `" ++ part.ItemCode ++ "`\n"
  match part.status with
  | some info =>
    message ++ "📊 *Estatus:* " ++ info.ultima_etapa ++ "\n" ++
      "🕐 *Actualizado:* " ++ info.fecha_actualizacion
  | none => message ++ "⚠️ Sin información de estatus"

/-- `ResponseBuilder.build_status_response`. -/
def build_status_response (parts : List StatusPartRec) : List String :=
  if parts.isEmpty then ["⚠️ No se encontraron piezas para consultar estatus."]
  else
    let message := "🛠️ *Estatus de piezas:*\n\n" ++
      String.join (parts.map fun part => format_part_status part ++ "\n\n")
    [pyStrip message]

/-- `ResponseBuilder.build_order_response`. -/
def build_order_response (order_data : Option OrderData) : List String :=
  match order_data with
  | none => ["⚠️ No se encontró información de la orden."]
  | some od =>
    ["📄 *Información de Orden*\n\n" ++
      "👤 *Cliente:* " ++ od.CardName ++ "\n" ++
      "💰 *Pagado:* " ++ od.PaidToDate ++ "\n" ++
      "🧾 *Facturado:* " ++ od.OINVToDate ++ "\n" ++
      "🚚 *Entregado:* " ++ od.ODLNToDate]

/-- `ResponseBuilder.build_error_message()` with no custom message (the only
call in the router). -/
def build_error_message : String :=
  "❌ Ocurrió un error procesando tu consulta. Escribe *hola* para volver al menú principal."

/-! ## `handlers/message_handler.py` — the Message Router

The database (`DatabaseService`), AI (`OllamaService`) and image
(`ImageService`) collaborators are explicit oracle parameters; each service
method catches its own network errors internally and returns a defaulted
value, so the oracles are total functions (the AI save/analyze calls, whose
exceptions the router handles, return `Except`).  The one exception the router
itself can raise — the `AttributeError` from `state.startswith("post_")` on a
`UserState` enum member — is modelled with `Except PyErr`. -/

/-- `MessageContext` dataclass (the raw payload is reduced to the one field
the router reads from it, the image media id). -/
structure MessageContext where
  text : String
  number : String
  message_id : String
  name : String
  message_type : String
  image_id : String := ""
deriving DecidableEq, Repr

/-- The collaborator services invoked by the router. -/
structure Collaborators where
  /-- `DatabaseService.search_parts(term, limit)` (catches internally, `[]` on error). -/
  search_parts : String → Nat → List PartRec
  /-- `DatabaseService.search_parts_for_status(term)`. -/
  search_parts_for_status : String → List StatusPartRec
  /-- `DatabaseService.get_order_data(n)`. -/
  get_order_data : Nat → Option OrderData
  /-- `DatabaseService.process_automatic_query(text)`. -/
  process_automatic_query : String → Option String
  /-- `DatabaseService.search_orders_by_client(name, limit)`. -/
  search_orders_by_client : String → Nat → List OrderData
  /-- `OllamaService.search_with_context(query)`. -/
  search_with_context : String → Option String
  /-- `ImageService.is_available()`. -/
  image_available : Bool
  /-- `ImageService.analyze_image(media_id)` (may raise). -/
  analyze_image : String → Except Unit String
  /-- `OllamaService.analyze_image_with_context(analysis)` (may raise). -/
  analyze_image_with_context : String → Except Unit String
  /-- `OllamaService.save_to_memory(text, source)` (may raise). -/
  save_to_memory : String → String → Except Unit Unit

/-- The modelled `AttributeError` raised inside routing. -/
inductive PyErr where
  | attributeError
deriving DecidableEq, Repr

/-- Result of `_route_message`: the responses to send, the session store
after the handler ran, and the order numbers passed to
`DatabaseService.get_order_data` along the way. -/
structure RouteOut where
  responses : List String
  store : StoreState
  order_lookups : List Nat := []
deriving DecidableEq, Repr

/-- First occurrence split: Python `s.split(sep, 1)` when `sep` occurs. -/
def splitOnce (sep : String) : List Char → List Char → Option (String × String)
  | _acc, [] => none
  | acc, c :: rest =>
    if sep.data.isPrefixOf (c :: rest) then
      some (⟨acc.reverse⟩, ⟨(c :: rest).drop sep.length⟩)
    else splitOnce sep (c :: acc) rest

/-- `MessageHandler._handle_image_message`. -/
def handle_image_message (co : Collaborators) (ctx : MessageContext) : List String :=
  if ¬ co.image_available then
    ["📷 Imagen recibida. Describe el contenido por texto para ayudarte mejor."]
  else
    match co.analyze_image ctx.image_id with
    | .error _ => ["⚠️ No se pudo procesar la imagen."]
    | .ok analysis =>
      match co.analyze_image_with_context analysis with
      | .error _ => ["⚠️ No se pudo procesar la imagen."]
      | .ok response => ["🖼️ *Análisis de imagen:*\n" ++ response]

/-- `MessageHandler._handle_memory_command`. -/
def handle_memory_command (co : Collaborators) (ctx : MessageContext) : List String :=
  let content := pyStrip ((splitOnce ":" [] ctx.text.data).getD ("", "")).2
  let (text, source) :=
    if pyContains content " | " then (splitOnce " | " [] content.data).getD ("", "")
    else (content, "WhatsApp (" ++ ctx.name ++ ")")
  match co.save_to_memory text source with
  | .ok _ =>
    ["🧠 Conocimiento guardado:\n*" ++ text.take 100 ++ "...*\n📁 Fuente: " ++ source]
  | .error _ => ["⚠️ No se pudo guardar el conocimiento."]

/-- `MessageHandler._handle_greeting`: clear the session and show the menu. -/
def handle_greeting (ctx : MessageContext) (st : StoreState) : RouteOut :=
  { responses := [build_main_menu "Hola, ¿en qué puedo ayudarte?"
      ["consulta", "estatus", "ordenes"] "Equipo AVANS"],
    store := clear_user_state st ctx.number }

/-- `MessageHandler._handle_part_consultation_start`. -/
def handle_part_consultation_start (ctx : MessageContext) (st : StoreState)
    (now : ℚ) : RouteOut :=
  { responses := ["🔍 Escribe el nombre o código de la pieza que deseas consultar."],
    store := set_user_state st ctx.number .awaiting_part_search [] now }

/-- `MessageHandler._handle_status_consultation_start`. -/
def handle_status_consultation_start (ctx : MessageContext) (st : StoreState)
    (now : ℚ) : RouteOut :=
  { responses := ["🛠️ Escribe el nombre o código de la pieza para consultar su estatus."],
    store := set_user_state st ctx.number .awaiting_status_search [] now }

/-- `MessageHandler._handle_order_consultation_start`. -/
def handle_order_consultation_start (ctx : MessageContext) (st : StoreState)
    (now : ℚ) : RouteOut :=
  { responses := ["📦 Escribe el número de orden que deseas consultar."],
    store := set_user_state st ctx.number .awaiting_order_number [] now }

/-- `MessageHandler._handle_part_search`. -/
def handle_part_search (co : Collaborators) (ctx : MessageContext)
    (st : StoreState) (now : ℚ) : RouteOut :=
  let parts := co.search_parts ctx.text 10
  if parts.isEmpty then
    match co.search_with_context ("pieza " ++ ctx.text) with
    | some rag =>
      { responses := ["⚠️ No encontré esa pieza en la base de datos.\n\n🧠 *Info relacionada:*\n" ++ rag],
        store := st }
    | none =>
      { responses := ["⚠️ No se encontraron piezas con ese nombre o código."], store := st }
  else
    { responses := build_parts_response parts ++
        [build_yes_no_question "¿Consultar otra pieza?" "postconsulta"],
      store := set_user_state st ctx.number .post_consultation [] now }

/-- `MessageHandler._handle_status_search`. -/
def handle_status_search (co : Collaborators) (ctx : MessageContext)
    (st : StoreState) (now : ℚ) : RouteOut :=
  let parts := co.search_parts_for_status ctx.text
  if parts.isEmpty then
    { responses := ["⚠️ No se encontró esa pieza para consultar estatus."], store := st }
  else
    { responses := build_status_response parts ++
        [build_yes_no_question "¿Consultar otra pieza?" "poststatus"],
      store := set_user_state st ctx.number .post_status [] now }

/-- `MessageHandler._handle_order_search`: non-numeric input is rejected
before any lookup; numeric input is looked up via `get_order_data`. -/
def handle_order_search (co : Collaborators) (ctx : MessageContext)
    (st : StoreState) (now : ℚ) : RouteOut :=
  if ¬ validate_order_number ctx.text then
    { responses := ["⚠️ El número de orden debe ser numérico. Intenta nuevamente."],
      store := st }
  else
    let n := pyInt ctx.text
    match co.get_order_data n with
    | none =>
      { responses := ["⚠️ No se encontró una orden con ese número."], store := st,
        order_lookups := [n] }
    | some order_data =>
      { responses := build_order_response (some order_data) ++
          [build_yes_no_question "¿Consultar otra orden?" "postorden"],
        store := set_user_state st ctx.number .post_order [] now,
        order_lookups := [n] }

/-- `MessageHandler._handle_post_action`, translated faithfully: it compares
its `state` argument against the *value strings* `"post_consultation"` etc.
(The router never actually reaches this function — see
`handle_stateful_message`.) -/
def handle_post_action (ctx : MessageContext) (st : StoreState) (state : String)
    (now : ℚ) : RouteOut :=
  if (ctx.text = "sí" ∨ ctx.text = "si") ∧ state = "post_consultation" then
    handle_part_consultation_start ctx st now
  else if (ctx.text = "sí" ∨ ctx.text = "si") ∧ state = "post_status" then
    handle_status_consultation_start ctx st now
  else if (ctx.text = "sí" ∨ ctx.text = "si") ∧ state = "post_order" then
    handle_order_consultation_start ctx st now
  else if ctx.text = "no" then
    { responses := ["✅ Perfecto. Escribe *hola* si necesitas algo más. ¡Gracias por usar AVANS!"],
      store := clear_user_state st ctx.number }
  else
    handle_greeting ctx st

/-- `MessageHandler._handle_stateful_message`.  The three `Awaiting*` states
are compared against `UserState` members and dispatch normally.  Every other
state falls through to `state.startswith("post_")` — but `state` is a
`UserState` member of a plain `enum.Enum`, which has no `startswith`
attribute, so the line raises `AttributeError` and neither
`_handle_post_action` nor the unknown-state reset branch can ever run. -/
def handle_stateful_message (co : Collaborators) (ctx : MessageContext)
    (st : StoreState) (state : UserState) (now : ℚ) : Except PyErr RouteOut :=
  match state with
  | .awaiting_part_search => .ok (handle_part_search co ctx st now)
  | .awaiting_status_search => .ok (handle_status_search co ctx st now)
  | .awaiting_order_number => .ok (handle_order_search co ctx st now)
  | _ => .error .attributeError

/-- Python `context.text.replace(" ", "").isalpha()` (letters incl. the
Spanish accented set used by this repository). -/
def isAlphaNoSpaces (s : String) : Bool :=
  let cs := s.data.filter fun c => c ≠ ' '
  ¬ cs.isEmpty && cs.all fun c =>
    c.isAlpha || ['á', 'é', 'í', 'ó', 'ú', 'ñ', 'ü'].contains c

/-- `MessageHandler._handle_free_text`: the five-stage fallback chain.  Stage
3 with a non-empty result calls `self.response_builder.build_orders_response`,
a method that does not exist on `ResponseBuilder`; the resulting
`AttributeError` is caught by this handler's own `try`/`except`, producing the
local error text. -/
def handle_free_text (co : Collaborators) (ctx : MessageContext)
    (st : StoreState) : RouteOut :=
  match co.process_automatic_query ctx.text with
  | some db_result =>
    { responses := ["🤖 *Resultado de base de datos:*\n\n" ++ db_result], store := st }
  | none =>
    let parts := co.search_parts ctx.text 3
    if ¬ parts.isEmpty then
      { responses := build_parts_response parts, store := st }
    else
      let step3 :=
        isAlphaNoSpaces ctx.text && decide (ctx.text.length > 3) &&
          ¬ (co.search_orders_by_client ctx.text 3).isEmpty
      if step3 then
        { responses := ["🤖 Error procesando consulta. Escribe \x27hola\x27 para ver el menú."],
          store := st }
      else
        match co.search_with_context ctx.text with
        | some ollama_response =>
          { responses := ["🤖 *Respuesta inteligente:*\n\n" ++ ollama_response], store := st }
        | none =>
          { responses := ["🤖 No encontré información específica sobre eso.\n\n" ++
              "💡 *Puedes intentar:*\n" ++
              "• Escribe *consulta* para buscar piezas\n" ++
              "• Escribe *estatus* para verificar estados\n" ++
              "• Escribe *ordenes* para consultar pedidos\n" ++
              "• O describe mejor lo que necesitas"],
            store := st }

/-- `MessageHandler._handle_stateless_message`. -/
def handle_stateless_message (co : Collaborators) (ctx : MessageContext)
    (st : StoreState) (now : ℚ) : RouteOut :=
  if ["hola", "ayuda", "empezar", "menu"].contains ctx.text then
    handle_greeting ctx st
  else if ["consulta", "menubtn1"].contains ctx.text then
    handle_part_consultation_start ctx st now
  else if ["estatus", "menubtn2"].contains ctx.text then
    handle_status_consultation_start ctx st now
  else if ["ordenes", "órdenes", "menubtn3"].contains ctx.text then
    handle_order_consultation_start ctx st now
  else if ["sí", "si", "no"].contains ctx.text then
    handle_greeting ctx st
  else
    handle_free_text co ctx st

/-- `MessageHandler._route_message`. -/
def route_message (co : Collaborators) (ctx : MessageContext) (st : StoreState)
    (now : ℚ) : Except PyErr RouteOut :=
  if ctx.message_type = "image" then
    .ok { responses := handle_image_message co ctx, store := st }
  else if pyStartswith ctx.text "memoria:" || pyStartswith ctx.text "agregar:" then
    .ok { responses := handle_memory_command co ctx, store := st }
  else
    match get_user_state st ctx.number with
    | some current_state => handle_stateful_message co ctx st current_state now
    | none => .ok (handle_stateless_message co ctx st now)

/-! ## Rate limiting, in-flight markers and `handle_message` -/

/-- The mutable state of a `MessageHandler`: the session store plus the
anti-spam table `self._last_responses` and the in-flight set
`self._processing_users`. -/
structure HandlerState where
  store : StoreState := {}
  last_responses : List (String × ℚ) := []
  processing_users : List String := []
deriving DecidableEq, Repr

/-- `MessageHandler._cleanup_old_responses`: drop entries older than 600 s. -/
def cleanup_old_responses (last_responses : List (String × ℚ)) (current_time : ℚ) :
    List (String × ℚ) :=
  last_responses.filter fun kv => ¬ kv.2 < current_time - 600

/-- The anti-spam key `f"{context.number}_{context.text[:20].lower()}"`. -/
def rate_key (ctx : MessageContext) : String :=
  ctx.number ++ "_" ++ pyLower (ctx.text.take 20)

/-- `MessageHandler._is_rate_limited`: suppress when the user is marked
in-flight, or when the key `number + "_" + text[:20].lower()` was answered
less than `COOLDOWN_SECONDS = 10` ago; otherwise record `now` for the key
(purging entries older than 600 s once the table exceeds 100 entries) and
allow.  Returns the verdict together with the updated handler state. -/
def is_rate_limited (hs : HandlerState) (ctx : MessageContext) (now : ℚ) :
    Bool × HandlerState :=
  let user_key := rate_key ctx
  if hs.processing_users.contains ctx.number then (true, hs)
  else
    let cooldown_hit :=
      match alLookup hs.last_responses user_key with
      | some ts => decide (now - ts < 10)
      | none => false
    if cooldown_hit then (true, hs)
    else
      let lr1 := alUpdate hs.last_responses user_key now
      let lr2 := if lr1.length > 100 then cleanup_old_responses lr1 now else lr1
      (false, { hs with last_responses := lr2 })

/-- `self._processing_users.add(number)`. -/
def mark_user_processing (users : List String) (number : String) : List String :=
  if users.contains number then users else number :: users

/-- `self._processing_users.discard(number)`. -/
def unmark_user_processing (users : List String) (number : String) : List String :=
  users.filter fun u => u ≠ number

/-- Observable side effects of one `handle_message` call. -/
inductive Action where
  | mark_read (message_id : String)
  | send_text (number message : String)
  | send_interactive (number message : String)
  | save_interaction (tipo mensaje respuesta contexto : String)
deriving DecidableEq, Repr

/-- `MessageHandler._send_responses`: payloads starting with a brace go out as
interactive messages, the rest as text (per-message delivery errors are caught
and do not abort the batch). -/
def send_responses_actions (number : String) (responses : List String) : List Action :=
  responses.map fun response =>
    if pyStartswith response "\x7b" then .send_interactive number response
    else .send_text number response

/-- Is the action an outbound message to the user? -/
def Action.isSend : Action → Bool
  | .send_text _ _ => true
  | .send_interactive _ _ => true
  | _ => false

/-- `MessageHandler.handle_message` with the outcome of `_route_message`
abstracted to an arbitrary `Except` value (the `try`/`except`/`finally`
skeleton): a rate-limited event returns immediately; otherwise the user is
marked in-flight, the message is marked read, routing runs, its responses are
sent and the interaction saved; any exception from routing is answered with
the single generic error message; the in-flight marker is released on every
path (`finally`). -/
def handle_message_with (routed : Except PyErr RouteOut) (ctx : MessageContext)
    (hs : HandlerState) (now : ℚ) : HandlerState × List Action :=
  match is_rate_limited hs ctx now with
  | (true, hs1) => (hs1, [])
  | (false, hs1) =>
    let hs2 := { hs1 with
      processing_users := mark_user_processing hs1.processing_users ctx.number }
    let released := unmark_user_processing hs2.processing_users ctx.number
    match routed with
    | .ok out =>
      ({ hs2 with store := out.store, processing_users := released },
        .mark_read ctx.message_id ::
          send_responses_actions ctx.number out.responses ++
          [.save_interaction (ctx.message_type ++ "-whatsapp") ctx.text
            (String.intercalate " | " out.responses) ctx.number])
    | .error _ =>
      ({ hs2 with processing_users := released },
        [.mark_read ctx.message_id, .send_text ctx.number build_error_message])

/-- `MessageHandler.handle_message` proper: the skeleton applied to the
actual `_route_message`. -/
def handle_message (co : Collaborators) (ctx : MessageContext)
    (hs : HandlerState) (now : ℚ) : HandlerState × List Action :=
  handle_message_with (route_message co ctx hs.store now) ctx hs now

/-! ## `consultas_automaticas.py` — intent detection

The patterns handed to `re.search` all have the same simple shape, built from
literal words, literal alternations, `\s+`, optional `(?:word\s+)?` groups, an
optional character class, and a single capturing `(\w+)` or `(\d+)`.  The
engine below implements Python `re.search` semantics for exactly this
fragment: leftmost match wins, and at a given start position alternatives are
tried in written order with greedy (longest-first, backtracking) repetition. -/

/-- One element of a pattern, in the fragment used by
`detectar_intencion_consulta`. -/
inductive RElem where
  /-- a literal word -/
  | lit : String → RElem
  /-- `(?:w1|w2|...)` over literal words -/
  | alts : List String → RElem
  /-- `\s+` -/
  | ws : RElem
  /-- `(?:word\s+)?` -/
  | optWordWs : String → RElem
  /-- `[c1c2...]?` -/
  | optCls : List Char → RElem
  /-- the capturing `(\w+)` -/
  | capW : RElem
  /-- the capturing `(\d+)` -/
  | capD : RElem
deriving DecidableEq, Repr

/-- Python regex `\w` for the texts of this repository: ASCII word characters
plus the Spanish accented letters appearing in the patterns. -/
def reWord (c : Char) : Bool :=
  c.isAlphanum || c = '_' || ['á', 'é', 'í', 'ó', 'ú', 'ñ', 'ü'].contains c

/-- Length of the maximal run of characters satisfying `p`. -/
def runLen (p : Char → Bool) : List Char → Nat
  | [] => 0
  | c :: rest => if p c then runLen p rest + 1 else 0

/-- `[m, m-1, ..., 1]`: the candidate lengths for a greedy `+`, longest
first. -/
def rangeDown (m : Nat) : List Nat :=
  (List.range m).reverse.map (· + 1)

/-- Match a pattern suffix against a prefix of `cs`, accumulating the capture;
alternatives are explored in Python preference order and the first complete
match wins. -/
def matchElems : List RElem → List Char → Option String → Option String
  | [], _, acc => some (acc.getD "")
  | .lit s :: es, cs, acc =>
    if s.data.isPrefixOf cs then matchElems es (cs.drop s.length) acc else none
  | .alts ss :: es, cs, acc =>
    firstSome (fun s =>
      if s.data.isPrefixOf cs then matchElems es (cs.drop s.length) acc else none) ss
  | .ws :: es, cs, acc =>
    firstSome (fun k => matchElems es (cs.drop k) acc) (rangeDown (runLen pyIsSpace cs))
  | .optWordWs s :: es, cs, acc =>
    (if s.data.isPrefixOf cs then
      let cs1 := cs.drop s.length
      firstSome (fun k => matchElems es (cs1.drop k) acc) (rangeDown (runLen pyIsSpace cs1))
    else none).orElse fun _ => matchElems es cs acc
  | .optCls cls :: es, cs, acc =>
    (match cs with
     | c :: rest => if cls.contains c then matchElems es rest acc else none
     | [] => none).orElse fun _ => matchElems es cs acc
  | .capW :: es, cs, _acc =>
    firstSome (fun k => matchElems es (cs.drop k) (some ⟨cs.take k⟩))
      (rangeDown (runLen reWord cs))
  | .capD :: es, cs, _acc =>
    firstSome (fun k => matchElems es (cs.drop k) (some ⟨cs.take k⟩))
      (rangeDown (runLen Char.isDigit cs))

/-- `re.search`: try every start position left to right, return the capture of
the first successful match. -/
def reSearch (es : List RElem) : List Char → Option String
  | [] => matchElems es [] none
  | c :: rest =>
    (matchElems es (c :: rest) none).orElse fun _ => reSearch es rest

/-- `patrones_pieza` of `detectar_intencion_consulta`, in listed order. -/
def patrones_pieza : List (List RElem) :=
  [[.alts ["pieza", "parte", "componente", "item", "artículo"], .ws, .capW],
   [.lit "código", .ws, .capW],
   [.lit "disponibilidad", .ws, .optWordWs "de", .capW],
   [.lit "stock", .ws, .optWordWs "de", .capW],
   [.lit "inventario", .ws, .optWordWs "de", .capW],
   [.lit "cuánto", .optCls ['a', 's'], .ws, .alts ["tenemos", "hay"], .ws, .optWordWs "de", .capW],
   [.lit "buscar", .ws, .capW],
   [.capW, .ws, .lit "disponible"],
   [.lit "tenemos", .ws, .capW],
   [.lit "hay", .ws, .capW],
   [.lit "mostrar", .ws, .capW],
   [.lit "información", .ws, .optWordWs "de", .capW]]

/-- `patrones_orden`. -/
def patrones_orden : List (List RElem) :=
  [[.lit "orden", .ws, .capD],
   [.lit "pedido", .ws, .capD],
   [.lit "número", .ws, .capD],
   [.lit "estado", .ws, .optWordWs "de", .optWordWs "orden", .capD],
   [.lit "facturación", .ws, .capD],
   [.lit "entrega", .ws, .capD],
   [.lit "consultar", .ws, .capD],
   [.lit "ver", .ws, .lit "orden", .ws, .capD]]

/-- `patrones_estatus`. -/
def patrones_estatus : List (List RElem) :=
  [[.lit "estatus", .ws, .optWordWs "de", .capW],
   [.lit "estado", .ws, .optWordWs "de", .capW],
   [.lit "situación", .ws, .optWordWs "de", .capW],
   [.lit "cómo", .ws, .lit "está", .ws, .capW],
   [.lit "actualización", .ws, .optWordWs "de", .capW],
   [.lit "proceso", .ws, .optWordWs "de", .capW]]

/-- The detected intent (`{"tipo": ..., "termino"/"numero": ...,
"texto_original": ...}`). -/
inductive Intencion where
  | pieza (termino texto_original : String)
  | orden (numero texto_original : String)
  | estatus (termino texto_original : String)
deriving DecidableEq, Repr

/-- The `for patron in patrones: ...` loop: capture of the first pattern that
matches. -/
def buscarPrimero (patrones : List (List RElem)) (cs : List Char) : Option String :=
  firstSome (fun p => reSearch p cs) patrones

/-- `detectar_intencion_consulta`: families checked in the fixed order
pieza → orden → estatus over the lowercased text. -/
def detectar_intencion_consulta (texto : String) : Option Intencion :=
  let texto_lower := pyLower texto
  match buscarPrimero patrones_pieza texto_lower.data with
  | some termino => some (.pieza termino texto)
  | none =>
    match buscarPrimero patrones_orden texto_lower.data with
    | some numero => some (.orden numero texto)
    | none =>
      match buscarPrimero patrones_estatus texto_lower.data with
      | some termino => some (.estatus termino texto)
      | none => none

/-- One row of `buscar_piezas_auto` (id, ItemName, ItemCode). -/
structure PiezaRow where
  id : Nat
  ItemName : String
  ItemCode : String
deriving DecidableEq, Repr

/-- `consulta_automatica_pieza`, with the two database helpers
(`buscar_piezas_auto`, `obtener_disponibilidad_auto`) as oracles: not-found
text for 0 rows; full detail (code plus one line per availability row) for 1
row; numbered summary of the first 5 rows otherwise, with a `... y N más.`
notice when more than 5 rows were found. -/
def consulta_automatica_pieza (buscar_piezas : String → List PiezaRow)
    (obtener_disponibilidad : Nat → List AvailRec) (termino : String) : String :=
  match buscar_piezas termino with
  | [] => "❌ No encontré ninguna pieza con \x27" ++ termino ++ "\x27 en el sistema."
  | [pieza] =>
    let respuesta := "📦 *" ++ pieza.ItemName ++ "*\n🔢 Código: `" ++ pieza.ItemCode ++ "`"
    match obtener_disponibilidad pieza.id with
    | [] => respuesta ++ "\n❌ Sin stock disponible"
    | d :: ds =>
      respuesta ++ "\n🧮 *Disponibilidad:*" ++
        String.join ((d :: ds).map fun r =>
          "\n- " ++ r.bodega ++ ": " ++ toString r.cantidad ++ " unidades")
  | resultados =>
    let respuesta := "🔍 Encontré " ++ toString resultados.length ++
      " piezas relacionadas con \x27" ++ termino ++ "\x27:\n\n" ++
      String.join ((resultados.take 5).enum.map fun p =>
        toString (p.1 + 1) ++ ". *" ++ p.2.ItemName ++ "* (`" ++ p.2.ItemCode ++ "`)\n")
    if resultados.length > 5 then
      respuesta ++ "\n... y " ++ toString (resultados.length - 5) ++ " más."
    else respuesta

/-! ## C4 — intent detection -/

/-- Counterexample for C4 as stated: on `"estatus del motor"` the status
pattern `estatus\s+(?:de\s+)?(\w+)` cannot absorb `"del "` with its optional
`de\s+` group (no whitespace follows the `de` of `del`), so the capture is
`"del"`, not `"motor"`. -/
theorem detectar_estatus_del_motor_counterexample :
    detectar_intencion_consulta "estatus del motor" =
      some (.estatus "del" "estatus del motor") ∧
    detectar_intencion_consulta "estatus del motor" ≠
      some (.estatus "motor" "estatus del motor") := by
  constructor
  · decide
  · decide

/-- C4 (amended): intent detection is a pure function of the text; the three
families are checked in the fixed order pieza → orden → estatus and, within a
family, patterns in listed order with the first match winning; no match gives
`none`.  Examples: `"código ABC123" → pieza "abc123"`,
`"orden 4521" → orden "4521"`, `"buenos días" → none`, and
`"estatus del motor" → estatus "del"` (the capture is `"del"`, not
`"motor"`). -/
theorem detectar_intencion_contract :
    detectar_intencion_consulta "código ABC123" =
      some (.pieza "abc123" "código ABC123") ∧
    detectar_intencion_consulta "orden 4521" =
      some (.orden "4521" "orden 4521") ∧
    detectar_intencion_consulta "estatus del motor" =
      some (.estatus "del" "estatus del motor") ∧
    detectar_intencion_consulta "buenos días" = none ∧
    (∀ p ps cs c, reSearch p cs = some c →
      buscarPrimero (p :: ps) cs = some c) ∧
    (∀ p ps cs, reSearch p cs = none →
      buscarPrimero (p :: ps) cs = buscarPrimero ps cs) ∧
    (∀ texto c, buscarPrimero patrones_pieza (pyLower texto).data = some c →
      detectar_intencion_consulta texto = some (.pieza c texto)) ∧
    (∀ texto c, buscarPrimero patrones_pieza (pyLower texto).data = none →
      buscarPrimero patrones_orden (pyLower texto).data = some c →
      detectar_intencion_consulta texto = some (.orden c texto)) ∧
    (∀ texto c, buscarPrimero patrones_pieza (pyLower texto).data = none →
      buscarPrimero patrones_orden (pyLower texto).data = none →
      buscarPrimero patrones_estatus (pyLower texto).data = some c →
      detectar_intencion_consulta texto = some (.estatus c texto)) ∧
    (∀ texto, buscarPrimero patrones_pieza (pyLower texto).data = none →
      buscarPrimero patrones_orden (pyLower texto).data = none →
      buscarPrimero patrones_estatus (pyLower texto).data = none →
      detectar_intencion_consulta texto = none) := by
  refine ⟨by decide, by decide, by decide, by decide, ?_, ?_, ?_, ?_, ?_, ?_⟩
  · intro p ps cs c h
    simp [buscarPrimero, firstSome, h, Option.orElse]
  · intro p ps cs h
    simp [buscarPrimero, firstSome, h, Option.orElse]
  · intro texto c h
    simp only [detectar_intencion_consulta]
    rw [h]
  · intro texto c h1 h2
    simp only [detectar_intencion_consulta]
    rw [h1, h2]
  · intro texto c h1 h2 h3
    simp only [detectar_intencion_consulta]
    rw [h1, h2, h3]
  · intro texto h1 h2 h3
    simp only [detectar_intencion_consulta]
    rw [h1, h2, h3]

/-- Witness for C4: the pieza family takes precedence and delivers its first
matching pattern's capture. -/
theorem detectar_intencion_contract_witness :
    detectar_intencion_consulta "buscar tornillo" =
      some (.pieza "tornillo" "buscar tornillo") :=
  detectar_intencion_contract.2.2.2.2.2.2.1 "buscar tornillo" "tornillo" (by decide)

/-! ## C8 — part-search cardinality shapes -/

/-- Six concrete inventory rows for the more-than-five case. -/
def seisPiezas : List PiezaRow :=
  [⟨1, "Perno A", "C1"⟩, ⟨2, "Perno B", "C2"⟩, ⟨3, "Perno C", "C3"⟩,
   ⟨4, "Perno D", "C4"⟩, ⟨5, "Perno E", "C5"⟩, ⟨6, "Perno F", "C6"⟩]

/-- C8: the shape of `consulta_automatica_pieza` is a function of the result
cardinality alone — 0 rows: the not-found text; 1 row: one detail message
carrying the item code and one `- bodega: n unidades` line per availability
row; 2–5 rows: a numbered summary of all of them; more than 5 rows: the first
5 plus the `... y N más.` notice with the remaining count (`1` for 6 rows). -/
theorem consulta_pieza_cardinality :
    (∀ b d t, b t = ([] : List PiezaRow) →
      consulta_automatica_pieza b d t =
        "❌ No encontré ninguna pieza con \x27" ++ t ++ "\x27 en el sistema.") ∧
    (∀ b d t p, b t = [p] →
      consulta_automatica_pieza b d t =
        (if (d p.id).isEmpty then
          "📦 *" ++ p.ItemName ++ "*\n🔢 Código: `" ++ p.ItemCode ++ "`" ++
            "\n❌ Sin stock disponible"
        else
          "📦 *" ++ p.ItemName ++ "*\n🔢 Código: `" ++ p.ItemCode ++ "`" ++
            "\n🧮 *Disponibilidad:*" ++
            String.join ((d p.id).map fun r =>
              "\n- " ++ r.bodega ++ ": " ++ toString r.cantidad ++ " unidades"))) ∧
    (∀ b d t (rs : List PiezaRow), b t = rs → 2 ≤ rs.length → rs.length ≤ 5 →
      consulta_automatica_pieza b d t =
        "🔍 Encontré " ++ toString rs.length ++ " piezas relacionadas con \x27" ++
          t ++ "\x27:\n\n" ++
          String.join (rs.enum.map fun p =>
            toString (p.1 + 1) ++ ". *" ++ p.2.ItemName ++ "* (`" ++ p.2.ItemCode ++ "`)\n")) ∧
    (∀ b d t (rs : List PiezaRow), b t = rs → rs.length > 5 →
      consulta_automatica_pieza b d t =
        "🔍 Encontré " ++ toString rs.length ++ " piezas relacionadas con \x27" ++
          t ++ "\x27:\n\n" ++
          String.join ((rs.take 5).enum.map fun p =>
            toString (p.1 + 1) ++ ". *" ++ p.2.ItemName ++ "* (`" ++ p.2.ItemCode ++ "`)\n") ++
          "\n... y " ++ toString (rs.length - 5) ++ " más.") ∧
    (pyContains
      (consulta_automatica_pieza (fun _ => seisPiezas) (fun _ => []) "perno")
      "... y 1 más." = true) := by
  refine ⟨?_, ?_, ?_, ?_, by set_option maxRecDepth 8192 in decide⟩
  · intro b d t hb
    unfold consulta_automatica_pieza
    rw [hb]
  · intro b d t p hb
    unfold consulta_automatica_pieza
    rw [hb]
    cases hd : d p.id with
    | nil => simp [hd]
    | cons r rest => simp [hd]
  · intro b d t rs hb h2 h5
    cases rs with
    | nil => simp at h2
    | cons a rs1 =>
      cases rs1 with
      | nil => simp at h2
      | cons a2 rest =>
        have htake : (a :: a2 :: rest).take 5 = a :: a2 :: rest :=
          List.take_of_length_le h5
        have hn5 : ¬ (a :: a2 :: rest).length > 5 := by omega
        unfold consulta_automatica_pieza
        rw [hb]
        simp only [htake, hn5, if_false, ite_false]
  · intro b d t rs hb h5
    cases rs with
    | nil => simp at h5
    | cons a rs1 =>
      cases rs1 with
      | nil => simp at h5
      | cons a2 rest =>
        unfold consulta_automatica_pieza
        rw [hb]
        simp only [h5, if_true, ite_true]

/-- Witness for C8 at concrete cardinalities 0, 2 and 6. -/
theorem consulta_pieza_cardinality_witness :
    consulta_automatica_pieza (fun _ => []) (fun _ => []) "perno" =
      "❌ No encontré ninguna pieza con \x27perno\x27 en el sistema." ∧
    consulta_automatica_pieza (fun _ => seisPiezas.take 2) (fun _ => []) "perno" =
      "🔍 Encontré 2 piezas relacionadas con \x27perno\x27:\n\n" ++
        String.join ((seisPiezas.take 2).enum.map fun p =>
          toString (p.1 + 1) ++ ". *" ++ p.2.ItemName ++ "* (`" ++ p.2.ItemCode ++ "`)\n") ∧
    consulta_automatica_pieza (fun _ => seisPiezas) (fun _ => []) "perno" =
      "🔍 Encontré 6 piezas relacionadas con \x27perno\x27:\n\n" ++
        String.join ((seisPiezas.take 5).enum.map fun p =>
          toString (p.1 + 1) ++ ". *" ++ p.2.ItemName ++ "* (`" ++ p.2.ItemCode ++ "`)\n") ++
        "\n... y 1 más." := by
  refine ⟨?_, ?_, ?_⟩
  · exact consulta_pieza_cardinality.1 (fun _ => []) (fun _ => []) "perno" rfl
  · exact consulta_pieza_cardinality.2.2.1 (fun _ => seisPiezas.take 2) (fun _ => [])
      "perno" (seisPiezas.take 2) rfl (by decide) (by decide)
  · exact consulta_pieza_cardinality.2.2.2.1 (fun _ => seisPiezas) (fun _ => [])
      "perno" seisPiezas rfl (by decide)

/-! ## General lemmas used by several claims -/

theorem alLookup_mem (l : List (String × α)) (k : String) (v : α)
    (h : alLookup l k = some v) : (k, v) ∈ l := by
  induction l with
  | nil => simp [alLookup] at h
  | cons hd tl ih =>
    obtain ⟨k0, v0⟩ := hd
    by_cases h0 : k0 = k
    · subst h0
      have hv : v0 = v := by simpa [alLookup] using h
      subst hv
      exact List.mem_cons_self _ _
    · simp only [alLookup, h0, if_false] at h
      exact List.mem_cons_of_mem _ (ih h)

theorem alLookup_filter (p : String × α → Bool) (l : List (String × α))
    (k : String) (v : α) (h : alLookup l k = some v) (hp : p (k, v) = true) :
    alLookup (l.filter p) k = some v := by
  induction l with
  | nil => simp [alLookup] at h
  | cons hd tl ih =>
    obtain ⟨k0, v0⟩ := hd
    by_cases h0 : k0 = k
    · subst h0
      have hv : v0 = v := by simpa [alLookup] using h
      subst hv
      simp [List.filter, hp, alLookup]
    · simp only [alLookup, h0, if_false] at h
      by_cases hq : p (k0, v0) = true
      · simp [List.filter, hq, alLookup, h0, ih h]
      · simp only [List.filter_cons, hq, if_neg, Bool.false_eq_true, not_false_iff,
          if_false]
        exact ih h

/-- `get_user_state` on an existing non-idle session returns its state. -/
theorem get_user_state_eq_of_lookup (st : StoreState) (u : String)
    (s : UserSession) (h : alLookup st.sessions u = some s)
    (hne : s.state ≠ .idle) : get_user_state st u = some s.state := by
  unfold get_user_state
  rw [h]
  simp [hne]

/-- All-default collaborators (every lookup empty), used to instantiate
oracle-parameterised theorems on concrete inputs. -/
def noopCollaborators : Collaborators where
  search_parts := fun _ _ => []
  search_parts_for_status := fun _ => []
  get_order_data := fun _ => none
  process_automatic_query := fun _ => none
  search_orders_by_client := fun _ _ => []
  search_with_context := fun _ => none
  image_available := false
  analyze_image := fun _ => .error ()
  analyze_image_with_context := fun _ => .error ()
  save_to_memory := fun _ _ => .ok ()

/-! ## C7 — `get_user_state` contract -/

/-- C7: `SessionStore.get` reports "no active state" (`none`) immediately
after `clear(user)` and immediately after the user's expiry callback
(`_timeout_user`) runs; in general it returns `none` exactly when the user has
no session or the session is `IDLE`, and otherwise returns the stored
state. -/
theorem get_user_state_contract :
    (∀ st u, get_user_state (clear_user_state st u) u = none) ∧
    (∀ st u, get_user_state (timeout_user st u) u = none) ∧
    (∀ st u, get_user_state st u = none ↔
      (alLookup st.sessions u = none ∨
        ∃ s, alLookup st.sessions u = some s ∧ s.state = UserState.idle)) ∧
    (∀ st u s, alLookup st.sessions u = some s → s.state ≠ UserState.idle →
      get_user_state st u = some s.state) := by
  have hclear : ∀ st u, get_user_state (clear_user_state st u) u = none := by
    intro st u
    unfold clear_user_state
    cases h : alLookup st.sessions u with
    | none => simp [get_user_state, h]
    | some s => simp [get_user_state, alLookup_update_self]
  refine ⟨hclear, ?_, ?_, ?_⟩
  · intro st u
    unfold timeout_user
    cases h : alLookup st.sessions u with
    | none => simp [get_user_state, h]
    | some s => exact hclear st u
  · intro st u
    unfold get_user_state
    cases h : alLookup st.sessions u with
    | none => simp
    | some s =>
      by_cases hidle : s.state = UserState.idle <;> simp [hidle]
  · exact fun st u s h hne => get_user_state_eq_of_lookup st u s h hne

/-- Witness for C7 at a concrete store. -/
theorem get_user_state_contract_witness :
    get_user_state
      (clear_user_state (set_user_state emptyStore "u" .post_consultation [] 0) "u") "u"
      = none ∧
    get_user_state (set_user_state emptyStore "u" .post_consultation [] 0) "u"
      = some .post_consultation := by
  constructor
  · exact get_user_state_contract.1 _ "u"
  · exact get_user_state_contract.2.2.2 _ "u"
      { state := .post_consultation, data := [], last_interaction := 0, timer := some 0 }
      (by decide) (by decide)

/-! ## C10 — the order-number gate -/

/-- C10: `validate_order_number` accepts exactly the strings that strip to a
non-empty all-digit string whose value lies in `1 ..= 999999999`; `"0"` and
over-range digit strings are rejected, and any rejected text draws the
"must be numeric" re-prompt from `_handle_order_search` with no
`get_order_data` lookup. -/
theorem validate_order_number_contract :
    (∀ s : String, validate_order_number s = true ↔
      ((pyStrip s).data ≠ [] ∧ (∀ c ∈ (pyStrip s).data, c.isDigit = true) ∧
        1 ≤ natOfDigits (pyStrip s) ∧ natOfDigits (pyStrip s) ≤ 999999999)) ∧
    validate_order_number "0" = false ∧
    validate_order_number "1000000000" = false ∧
    validate_order_number "4521" = true ∧
    (∀ co ctx st now, validate_order_number ctx.text = false →
      handle_order_search co ctx st now =
        { responses := ["⚠️ El número de orden debe ser numérico. Intenta nuevamente."],
          store := st, order_lookups := [] }) := by
  refine ⟨?_, by decide, by decide, by decide, ?_⟩
  · intro s
    unfold validate_order_number pyIsdigit
    by_cases he : (pyStrip s).data = []
    · simp [he]
    · simp [he, List.all_eq_true, List.isEmpty_iff, and_assoc]
  · intro co ctx st now h
    unfold handle_order_search
    simp [h]

/-- Witness for C10: the numeric but out-of-domain input `"0"` is rejected by
the gate without a lookup. -/
theorem validate_order_number_contract_witness :
    handle_order_search noopCollaborators
      { text := "0", number := "5215550000000", message_id := "wamid.1",
        name := "Cliente", message_type := "text" } emptyStore 0 =
      { responses := ["⚠️ El número de orden debe ser numérico. Intenta nuevamente."],
        store := emptyStore, order_lookups := [] } :=
  validate_order_number_contract.2.2.2.2 noopCollaborators
    { text := "0", number := "5215550000000", message_id := "wamid.1",
      name := "Cliente", message_type := "text" } emptyStore 0 (by decide)

/-! ## C9 — non-numeric input in `AwaitingOrderNumber` -/

/-- C9: with a stored `AWAITING_ORDER_NUMBER` session, a non-numeric text is
answered with the "must be numeric" message, the store (state *and* data) is
returned unchanged and no order lookup happens; a numeric text performs the
lookup `get_order_data(int(text))`. -/
theorem awaiting_order_number_route :
    ∀ co ctx st now (s : UserSession),
    ctx.message_type ≠ "image" →
    pyStartswith ctx.text "memoria:" = false →
    pyStartswith ctx.text "agregar:" = false →
    alLookup st.sessions ctx.number = some s →
    s.state = UserState.awaiting_order_number →
    (validate_order_number ctx.text = false →
      route_message co ctx st now =
        .ok { responses := ["⚠️ El número de orden debe ser numérico. Intenta nuevamente."],
              store := st, order_lookups := [] }) ∧
    (validate_order_number ctx.text = true →
      ∃ out, route_message co ctx st now = .ok out ∧
        out.order_lookups = [pyInt ctx.text]) := by
  intro co ctx st now s himg hm ha hlook hstate
  have hget : get_user_state st ctx.number = some UserState.awaiting_order_number := by
    rw [get_user_state_eq_of_lookup st ctx.number s hlook (by rw [hstate]; decide), hstate]
  have hroute : route_message co ctx st now =
      handle_stateful_message co ctx st UserState.awaiting_order_number now := by
    unfold route_message
    simp [himg, hm, ha, hget]
  constructor
  · intro hval
    rw [hroute]
    unfold handle_stateful_message handle_order_search
    simp [hval]
  · intro hval
    rw [hroute]
    unfold handle_stateful_message handle_order_search
    simp only [hval, Bool.true_eq_false, not_true_eq_false, if_false, ite_false,
      Bool.not_true]
    cases co.get_order_data (pyInt ctx.text) <;> simp

/-! ## C5 — the rate limiter -/

/-- Fresh handler state (new `MessageHandler`). -/
def emptyHandler : HandlerState := {}

/-- `is_rate_limited` never touches the in-flight set. -/
theorem is_rate_limited_processing (hs : HandlerState) (ctx : MessageContext)
    (now : ℚ) : (is_rate_limited hs ctx now).2.processing_users = hs.processing_users := by
  by_cases hp : ctx.number ∈ hs.processing_users
  · simp [is_rate_limited, hp]
  · cases hl : alLookup hs.last_responses (rate_key ctx) with
    | none => simp [is_rate_limited, hp, hl]
    | some ts => by_cases hlt : now - ts < 10 <;> simp [is_rate_limited, hp, hl, hlt]

/-- A suppressed call returns the handler state unchanged. -/
theorem is_rate_limited_true_state (hs : HandlerState) (ctx : MessageContext)
    (now : ℚ) (h : (is_rate_limited hs ctx now).1 = true) :
    (is_rate_limited hs ctx now).2 = hs := by
  by_cases hp : ctx.number ∈ hs.processing_users
  · simp [is_rate_limited, hp]
  · cases hl : alLookup hs.last_responses (rate_key ctx) with
    | none => simp [is_rate_limited, hp, hl] at h
    | some ts =>
      by_cases hlt : now - ts < 10
      · simp [is_rate_limited, hp, hl, hlt]
      · simp [is_rate_limited, hp, hl, hlt] at h

/-- C5: the event is suppressed exactly when the user is in-flight or the key
`(user, text[:20].lower())` was stamped less than 10 s ago; an allowed call
stamps `now` for the key; hence a repeat of an allowed call within 10 s is
suppressed and a repeat 10 s or later is allowed; and a suppressed event
short-circuits `handle_message` with no actions at all (nothing sent, no
handler invoked, state untouched) whatever routing would have produced. -/
theorem rate_limiter_contract :
    (∀ hs ctx now, (is_rate_limited hs ctx now).1 = true ↔
      (ctx.number ∈ hs.processing_users ∨
        ∃ ts, alLookup hs.last_responses (rate_key ctx) = some ts ∧ now - ts < 10)) ∧
    (∀ hs ctx now, (is_rate_limited hs ctx now).1 = false →
      alLookup (is_rate_limited hs ctx now).2.last_responses (rate_key ctx) = some now) ∧
    (∀ hs ctx now1 now2, (is_rate_limited hs ctx now1).1 = false →
      now2 - now1 < 10 →
      (is_rate_limited (is_rate_limited hs ctx now1).2 ctx now2).1 = true) ∧
    (∀ hs ctx now1 now2, (is_rate_limited hs ctx now1).1 = false →
      10 ≤ now2 - now1 →
      (is_rate_limited (is_rate_limited hs ctx now1).2 ctx now2).1 = false) ∧
    (∀ hs ctx now routed, (is_rate_limited hs ctx now).1 = true →
      handle_message_with routed ctx hs now = (hs, [])) := by
  have hiff : ∀ hs ctx now, (is_rate_limited hs ctx now).1 = true ↔
      (ctx.number ∈ hs.processing_users ∨
        ∃ ts, alLookup hs.last_responses (rate_key ctx) = some ts ∧ now - ts < 10) := by
    intro hs ctx now
    by_cases hp : ctx.number ∈ hs.processing_users
    · simp [is_rate_limited, hp]
    · cases hl : alLookup hs.last_responses (rate_key ctx) with
      | none => simp [is_rate_limited, hp, hl]
      | some ts => by_cases hlt : now - ts < 10 <;> simp [is_rate_limited, hp, hl, hlt]
  have hstamp : ∀ hs ctx now, (is_rate_limited hs ctx now).1 = false →
      alLookup (is_rate_limited hs ctx now).2.last_responses (rate_key ctx) = some now := by
    intro hs ctx now h
    have hkeep : ∀ lr : List (String × ℚ), alLookup lr (rate_key ctx) = some now →
        alLookup (if lr.length > 100 then cleanup_old_responses lr now else lr)
          (rate_key ctx) = some now := by
      intro lr hl
      by_cases hlen : lr.length > 100
      · rw [if_pos hlen]
        unfold cleanup_old_responses
        refine alLookup_filter _ lr _ now hl ?_
        simp only [decide_eq_true_eq]
        intro hcontra
        linarith
      · rw [if_neg hlen]
        exact hl
    by_cases hp : ctx.number ∈ hs.processing_users
    · exfalso
      rw [(hiff hs ctx now).mpr (Or.inl hp)] at h
      exact Bool.true_eq_false.mp h
    · cases hl : alLookup hs.last_responses (rate_key ctx) with
      | none =>
        simp [is_rate_limited, hp, hl]
        simpa using hkeep _ (alLookup_update_self _ _ _)
      | some ts =>
        by_cases hlt : now - ts < 10
        · exfalso
          rw [(hiff hs ctx now).mpr (Or.inr ⟨ts, hl, hlt⟩)] at h
          exact Bool.true_eq_false.mp h
        · simp [is_rate_limited, hp, hl, hlt]
          simpa [hlt] using hkeep _ (alLookup_update_self _ _ _)
  have hnotproc : ∀ hs ctx (now : ℚ), (is_rate_limited hs ctx now).1 = false →
      ctx.number ∉ hs.processing_users := by
    intro hs ctx now h hp
    rw [(hiff hs ctx now).mpr (Or.inl hp)] at h
    exact Bool.true_eq_false.mp h
  refine ⟨hiff, hstamp, ?_, ?_, ?_⟩
  · intro hs ctx now1 now2 h1 hlt
    refine (hiff _ ctx now2).mpr (Or.inr ⟨now1, ?_, hlt⟩)
    exact hstamp hs ctx now1 h1
  · intro hs ctx now1 now2 h1 hge
    by_cases h2 : (is_rate_limited (is_rate_limited hs ctx now1).2 ctx now2).1 = true
    · exfalso
      rcases (hiff _ ctx now2).mp h2 with hp | ⟨ts, hts, hlt⟩
      · rw [is_rate_limited_processing] at hp
        exact hnotproc hs ctx now1 h1 hp
      · rw [hstamp hs ctx now1 h1] at hts
        injection hts with hts
        subst hts
        linarith
    · simpa using h2
  · intro hs ctx now routed h
    have hpair : is_rate_limited hs ctx now = (true, hs) := by
      rw [Prod.ext_iff]
      exact ⟨h, is_rate_limited_true_state hs ctx now h⟩
    unfold handle_message_with
    rw [hpair]

/-- Witness for C5: an allowed call at `t = 0` suppresses its repeat at
`t = 5`. -/
theorem rate_limiter_contract_witness :
    (is_rate_limited emptyHandler
      { text := "hola", number := "u", message_id := "m",
        name := "n", message_type := "text" } 0).1 = false ∧
    (is_rate_limited
      (is_rate_limited emptyHandler
        { text := "hola", number := "u", message_id := "m",
          name := "n", message_type := "text" } 0).2
      { text := "hola", number := "u", message_id := "m",
        name := "n", message_type := "text" } 5).1 = true := by
  constructor
  · decide
  · exact rate_limiter_contract.2.2.1 emptyHandler _ 0 5 (by decide) (by norm_num)

/-! ## C6 — error policy and in-flight release -/

/-- The in-flight discard leaves the user outside the set. -/
theorem not_mem_unmark (l : List String) (u : String) :
    u ∉ unmark_user_processing l u := by
  intro hmem
  have := List.mem_filter.mp hmem
  simp at this

/-- C6: for a non-suppressed event, whatever routing produces — success or an
uncaught exception — the user is out of the in-flight set when
`handle_message` returns, and an uncaught routing exception results in exactly
one outbound message: the generic apology. -/
theorem error_policy :
    ∀ routed ctx hs (now : ℚ), (is_rate_limited hs ctx now).1 = false →
      (ctx.number ∉ (handle_message_with routed ctx hs now).1.processing_users) ∧
      (∀ e, routed = .error e →
        (handle_message_with routed ctx hs now).2.filter Action.isSend =
          [Action.send_text ctx.number build_error_message]) := by
  intro routed ctx hs now h
  have hpair : is_rate_limited hs ctx now = (false, (is_rate_limited hs ctx now).2) :=
    Prod.ext_iff.mpr ⟨h, rfl⟩
  unfold handle_message_with
  rw [hpair]
  cases routed with
  | ok out =>
    refine ⟨not_mem_unmark _ _, ?_⟩
    intro e he
    exact absurd he (by simp)
  | error e0 =>
    refine ⟨not_mem_unmark _ _, ?_⟩
    intro e _
    simp [Action.isSend, List.filter, send_responses_actions]

/-! ## C3 — session-store timer and data invariants

The claim's invariant is proved for every state reachable through the store's
operations, via the inductive strengthening `timersOK`: every live timer is
exactly the handle referenced by its user's session, and that session is not
idle.  The "Idle sessions have empty data" clause of the claim is *not*
preserved by `set_user_data`, which can attach data to an (implicitly created
or previously cleared) idle session — see the counterexample. -/

theorem get?_set_self (l : List α) (i : Nat) (a : α) :
    (l.set i a).get? i = (l.get? i).map fun _ => a := by
  induction l generalizing i with
  | nil => cases i <;> rfl
  | cons hd tl ih =>
    cases i with
    | zero => rfl
    | succ n => simpa [List.set, List.get?] using ih n

theorem get?_set_ne (l : List α) (i j : Nat) (a : α) (h : i ≠ j) :
    (l.set i a).get? j = l.get? j := by
  induction l generalizing i j with
  | nil => rfl
  | cons hd tl ih =>
    cases i with
    | zero =>
      cases j with
      | zero => exact absurd rfl h
      | succ m => rfl
    | succ n =>
      cases j with
      | zero => rfl
      | succ m => simpa [List.set, List.get?] using ih n m (by omega)

theorem get?_append_split (l1 l2 : List α) (i : Nat) :
    (l1 ++ l2).get? i = if i < l1.length then l1.get? i else l2.get? (i - l1.length) := by
  induction l1 generalizing i with
  | nil => simp
  | cons hd tl ih =>
    cases i with
    | zero => simp
    | succ n =>
      simp only [List.cons_append, List.get?, List.length_cons, List.append_eq]
      rw [ih n]
      by_cases hlt : n < tl.length
      · rw [if_pos hlt, if_pos (by omega)]
      · rw [if_neg hlt, if_neg (by omega)]
        congr 1
        omega

/-- `cancelTimer` pointwise: the targeted slot gets `cancelled := true`,
everything else is untouched. -/
theorem cancelTimer_get? (ts : List TimerRec) (id id2 : Nat) :
    (cancelTimer ts id).get? id2 =
      if id2 = id then (ts.get? id).map (fun t => { t with cancelled := true })
      else ts.get? id2 := by
  unfold cancelTimer
  cases h : ts.get? id with
  | none =>
    by_cases he : id2 = id
    · subst he
      rw [if_pos rfl, h]
      rfl
    · rw [if_neg he]
  | some t =>
    by_cases he : id2 = id
    · subst he
      rw [if_pos rfl, get?_set_self, h]
      rfl
    · rw [if_neg he, get?_set_ne _ _ _ _ fun hc => he hc.symm]

/-- `cancelTimer` preserves length. -/
theorem cancelTimer_length (ts : List TimerRec) (id : Nat) :
    (cancelTimer ts id).length = ts.length := by
  unfold cancelTimer
  cases ts.get? id <;> simp

/-- A slot still live after a `cancelTimer` was live before and was not the
cancelled one. -/
theorem live_of_cancelTimer (ts : List TimerRec) (id id2 : Nat) (t : TimerRec)
    (hg : (cancelTimer ts id).get? id2 = some t) (hc : t.cancelled = false) :
    ts.get? id2 = some t ∧ id2 ≠ id := by
  rw [cancelTimer_get?] at hg
  by_cases he : id2 = id
  · rw [if_pos he] at hg
    cases h0 : ts.get? id with
    | none => rw [h0] at hg; exact absurd hg (by simp)
    | some t0 =>
      rw [h0] at hg
      exfalso
      have : t = { t0 with cancelled := true } := by
        injection hg with h1
        exact h1.symm
      rw [this] at hc
      exact Bool.true_eq_false.mp hc
  · rw [if_neg he] at hg
    exact ⟨hg, he⟩

/-- A slot still live after the sweep's fold of cancellations was live before,
and none of the swept sessions referenced it. -/
theorem live_of_foldl_cancel (l : List (String × UserSession))
    (ts : List TimerRec) (id : Nat) (t : TimerRec)
    (hg : (l.foldl (fun acc e =>
        match e.2.timer with
        | some i => cancelTimer acc i
        | none => acc) ts).get? id = some t)
    (hc : t.cancelled = false) :
    ts.get? id = some t ∧ ∀ e ∈ l, e.2.timer ≠ some id := by
  induction l generalizing ts with
  | nil => exact ⟨hg, by simp⟩
  | cons e rest ih =>
    rw [List.foldl_cons] at hg
    obtain ⟨hmid, hrest⟩ := ih _ hg
    cases he : e.2.timer with
    | none =>
      rw [he] at hmid
      refine ⟨hmid, ?_⟩
      intro e2 he2
      rcases List.mem_cons.mp he2 with rfl | hmem
      · rw [he]; simp
      · exact hrest e2 hmem
    | some i =>
      rw [he] at hmid
      obtain ⟨hts, hne⟩ := live_of_cancelTimer ts i id t hmid hc
      refine ⟨hts, ?_⟩
      intro e2 he2
      rcases List.mem_cons.mp he2 with rfl | hmem
      · rw [he]
        intro hcon
        injection hcon with hcon
        exact hne hcon.symm
      · exact hrest e2 hmem

/-- Restating `set_user_state` for an `IDLE` write. -/
theorem set_user_state_idle (st : StoreState) (u : String)
    (data : List (String × String)) (now : ℚ) :
    set_user_state st u .idle data now =
      { sessions := alUpdate st.sessions u (upserted_session st u .idle data now),
        timers := cancel_current_timer st u } := by
  unfold set_user_state
  simp

/-- Restating `set_user_state` for a non-`IDLE` write. -/
theorem set_user_state_active (st : StoreState) (u : String) (state : UserState)
    (data : List (String × String)) (now : ℚ) (h : state ≠ .idle) :
    set_user_state st u state data now =
      { sessions := alUpdate st.sessions u
          { upserted_session st u state data now with
              timer := some (cancel_current_timer st u).length },
        timers := cancel_current_timer st u ++ [⟨u, false, false⟩] } := by
  unfold set_user_state
  rw [if_pos h]

/-- The merged session keeps the freshly written state. -/
theorem upserted_session_state (st : StoreState) (u : String) (state : UserState)
    (data : List (String × String)) (now : ℚ) :
    (upserted_session st u state data now).state = state := by
  unfold upserted_session
  by_cases hd : data.isEmpty <;> simp [hd]

/-- A slot live after the `set_user_state` prologue was live before, and is
not the handle referenced by the user's session. -/
theorem cancel_current_spec (st : StoreState) (u : String) (id : Nat)
    (t : TimerRec) (hg : (cancel_current_timer st u).get? id = some t)
    (hc : t.cancelled = false) :
    st.timers.get? id = some t ∧
      ∀ s0, alLookup st.sessions u = some s0 → s0.timer ≠ some id := by
  unfold cancel_current_timer at hg
  cases hlk : alLookup st.sessions u with
  | none =>
    rw [hlk] at hg
    refine ⟨?_, ?_⟩
    · exact hg
    · intro s0 h0
      exact absurd h0 (by simp)
  | some session =>
    rw [hlk] at hg
    have hg2 : (match session.timer with
        | some id0 => cancelTimer st.timers id0
        | none => st.timers).get? id = some t := hg
    cases htm : session.timer with
    | none =>
      rw [htm] at hg2
      refine ⟨?_, ?_⟩
      · exact hg2
      · intro s0 h0
        injection h0 with h0
        subst h0
        rw [htm]
        simp
    | some id0 =>
      rw [htm] at hg2
      have hg3 : (cancelTimer st.timers id0).get? id = some t := hg2
      obtain ⟨hts, hne⟩ := live_of_cancelTimer st.timers id0 id t hg3 hc
      refine ⟨hts, ?_⟩
      intro s0 h0
      injection h0 with h0
      subst h0
      rw [htm]
      intro hcon
      injection hcon with hcon
      exact hne hcon.symm

/-- Every live timer is exactly the handle referenced by its (non-idle)
user's session: the inductive strengthening of the claim's invariant. -/
def timersOK (st : StoreState) : Prop :=
  ∀ id t, st.timers.get? id = some t → t.cancelled = false → t.fired = false →
    ∃ s, alLookup st.sessions t.user = some s ∧ s.timer = some id ∧
      s.state ≠ UserState.idle

/-- A session holds at most one live expiry timer at any time. -/
def atMostOneLiveTimer (st : StoreState) : Prop :=
  ∀ id1 id2 t1 t2, st.timers.get? id1 = some t1 → st.timers.get? id2 = some t2 →
    t1.cancelled = false → t1.fired = false →
    t2.cancelled = false → t2.fired = false →
    t1.user = t2.user → id1 = id2

/-- A session in `IDLE` state has no live expiry timer. -/
def idleNoLiveTimer (st : StoreState) : Prop :=
  ∀ u s id t, alLookup st.sessions u = some s → s.state = UserState.idle →
    st.timers.get? id = some t → t.user = u →
    t.cancelled = true ∨ t.fired = true

/-- A session in `IDLE` state has an empty data mapping (the clause of the
claim that the code does **not** preserve). -/
def idleEmptyData (st : StoreState) : Prop :=
  ∀ u s, alLookup st.sessions u = some s → s.state = UserState.idle → s.data = []

theorem timersOK_implies (st : StoreState) (h : timersOK st) :
    atMostOneLiveTimer st ∧ idleNoLiveTimer st := by
  constructor
  · intro id1 id2 t1 t2 hg1 hg2 hc1 hf1 hc2 hf2 huser
    obtain ⟨s1, hs1, ht1, _⟩ := h id1 t1 hg1 hc1 hf1
    obtain ⟨s2, hs2, ht2, _⟩ := h id2 t2 hg2 hc2 hf2
    rw [huser, hs2] at hs1
    injection hs1 with hs1
    subst hs1
    exact Option.some.inj (ht1.symm.trans ht2)
  · intro u s id t hlk hidle hg huser
    by_cases hcancel : t.cancelled = true
    · exact Or.inl hcancel
    · by_cases hfire : t.fired = true
      · exact Or.inr hfire
      · exfalso
        have hc : t.cancelled = false := by
          revert hcancel; cases t.cancelled <;> simp
        have hf : t.fired = false := by
          revert hfire; cases t.fired <;> simp
        obtain ⟨s2, hs2, _, hstate⟩ := h id t hg hc hf
        rw [huser, hlk] at hs2
        injection hs2 with hs2
        subst hs2
        exact hstate hidle

theorem timersOK_set (st : StoreState) (u : String) (state : UserState)
    (data : List (String × String)) (now : ℚ) (h : timersOK st) :
    timersOK (set_user_state st u state data now) := by
  by_cases hstate : state = UserState.idle
  · subst hstate
    rw [set_user_state_idle]
    intro id t hg hc hf
    obtain ⟨hts, hnoref⟩ := cancel_current_spec st u id t hg hc
    obtain ⟨s, hs, htimer, hsstate⟩ := h id t hts hc hf
    by_cases hu : t.user = u
    · exact absurd htimer (hnoref s (hu ▸ hs))
    · refine ⟨s, ?_, htimer, hsstate⟩
      rw [alLookup_update_ne st.sessions u t.user _ fun he => hu he.symm]
      exact hs
  · rw [set_user_state_active st u state data now hstate]
    intro id t hg hc hf
    have hg2 : (cancel_current_timer st u ++ [(⟨u, false, false⟩ : TimerRec)]).get? id
        = some t := hg
    rw [get?_append_split] at hg2
    by_cases hlt : id < (cancel_current_timer st u).length
    · rw [if_pos hlt] at hg2
      obtain ⟨hts, hnoref⟩ := cancel_current_spec st u id t hg2 hc
      obtain ⟨s, hs, htimer, hsstate⟩ := h id t hts hc hf
      by_cases hu : t.user = u
      · exact absurd htimer (hnoref s (hu ▸ hs))
      · refine ⟨s, ?_, htimer, hsstate⟩
        rw [alLookup_update_ne st.sessions u t.user _ fun he => hu he.symm]
        exact hs
    · rw [if_neg hlt] at hg2
      cases hsub : id - (cancel_current_timer st u).length with
      | zero =>
        rw [hsub] at hg2
        have hid : id = (cancel_current_timer st u).length := by omega
        have ht : t = ⟨u, false, false⟩ := by
          have hg3 : some (⟨u, false, false⟩ : TimerRec) = some t := by
            simpa [List.get?] using hg2
          injection hg3 with hg3
          exact hg3.symm
        refine ⟨{ upserted_session st u state data now with
            timer := some (cancel_current_timer st u).length }, ?_, ?_, ?_⟩
        · rw [ht]
          exact alLookup_update_self st.sessions u _
        · rw [hid]
        · simpa [upserted_session_state] using hstate
      | succ n =>
        rw [hsub] at hg2
        exact absurd hg2 (by simp [List.get?])

theorem timersOK_clear (st : StoreState) (u : String) (h : timersOK st) :
    timersOK (clear_user_state st u) := by
  unfold clear_user_state
  cases hlk : alLookup st.sessions u with
  | none => exact h
  | some session =>
    intro id t hg hc hf
    have hg2 : (match session.timer with
        | some id0 => cancelTimer st.timers id0
        | none => st.timers).get? id = some t := hg
    show ∃ s, alLookup (alUpdate st.sessions u
        { session with state := UserState.idle, data := [], timer := none }) t.user
          = some s ∧ s.timer = some id ∧ s.state ≠ UserState.idle
    cases htm : session.timer with
    | none =>
      rw [htm] at hg2
      have hg3 : st.timers.get? id = some t := hg2
      obtain ⟨s, hs, htimer, hsstate⟩ := h id t hg3 hc hf
      by_cases hu : t.user = u
      · rw [hu, hlk] at hs
        injection hs with hs
        subst hs
        rw [htm] at htimer
        exact absurd htimer (by simp)
      · refine ⟨s, ?_, htimer, hsstate⟩
        rw [alLookup_update_ne st.sessions u t.user _ fun he => hu he.symm]
        exact hs
    | some id0 =>
      rw [htm] at hg2
      have hg3 : (cancelTimer st.timers id0).get? id = some t := hg2
      obtain ⟨hts, hne⟩ := live_of_cancelTimer st.timers id0 id t hg3 hc
      obtain ⟨s, hs, htimer, hsstate⟩ := h id t hts hc hf
      by_cases hu : t.user = u
      · rw [hu, hlk] at hs
        injection hs with hs
        subst hs
        rw [htm] at htimer
        injection htimer with htimer
        exact absurd htimer.symm hne
      · refine ⟨s, ?_, htimer, hsstate⟩
        rw [alLookup_update_ne st.sessions u t.user _ fun he => hu he.symm]
        exact hs

theorem timersOK_set_data (st : StoreState) (u k v : String) (now : ℚ)
    (h : timersOK st) : timersOK (set_user_data st u k v now) := by
  intro id t hg hc hf
  have hg2 : st.timers.get? id = some t := hg
  obtain ⟨s, hs, htimer, hsstate⟩ := h id t hg2 hc hf
  by_cases hu : t.user = u
  · have hlk : alLookup st.sessions u = some s := hu ▸ hs
    refine ⟨{ s with data := alUpdate s.data k v, last_interaction := now },
      ?_, htimer, hsstate⟩
    rw [hu]
    unfold set_user_data
    rw [hlk]
    exact alLookup_update_self st.sessions u _
  · refine ⟨s, ?_, htimer, hsstate⟩
    have : alLookup (alUpdate st.sessions u
        { (alLookup st.sessions u).getD {} with
            data := alUpdate ((alLookup st.sessions u).getD {}).data k v,
            last_interaction := now }) t.user = alLookup st.sessions t.user :=
      alLookup_update_ne st.sessions u t.user _ fun he => hu he.symm
    rw [show alLookup (set_user_data st u k v now).sessions t.user =
        alLookup st.sessions t.user from this]
    exact hs

theorem timersOK_timeout (st : StoreState) (u : String) (h : timersOK st) :
    timersOK (timeout_user st u) := by
  unfold timeout_user
  cases hlk : alLookup st.sessions u with
  | none => exact h
  | some s => exact timersOK_clear st u h

theorem timersOK_cleanup (st : StoreState) (now max_age : ℚ) (h : timersOK st) :
    timersOK (cleanup_inactive_sessions st now max_age) := by
  intro id t hg hc hf
  have hg2 : ((st.sessions.filter fun e =>
        decide (e.2.last_interaction < now - max_age)).foldl
      (fun acc e => match e.2.timer with
        | some i => cancelTimer acc i
        | none => acc) st.timers).get? id = some t := hg
  obtain ⟨hts, hnostale⟩ := live_of_foldl_cancel _ _ id t hg2 hc
  obtain ⟨s, hs, htimer, hsstate⟩ := h id t hts hc hf
  have hmem := alLookup_mem _ _ _ hs
  by_cases hstale : s.last_interaction < now - max_age
  · exfalso
    have hmem2 : (t.user, s) ∈ st.sessions.filter fun e =>
        decide (e.2.last_interaction < now - max_age) :=
      List.mem_filter.mpr ⟨hmem, by simpa using hstale⟩
    exact hnostale _ hmem2 htimer
  · refine ⟨s, ?_, htimer, hsstate⟩
    have hkeep : alLookup (st.sessions.filter fun e =>
        decide (¬ e.2.last_interaction < now - max_age)) t.user = some s :=
      alLookup_filter _ st.sessions t.user s hs (by simpa using hstale)
    exact hkeep

theorem timersOK_fire (st : StoreState) (id0 : Nat) (h : timersOK st) :
    timersOK (fireTimer st id0) := by
  unfold fireTimer
  cases hg0 : st.timers.get? id0 with
  | none => exact h
  | some t0 =>
    show timersOK (if ¬ t0.cancelled = true ∧ ¬ t0.fired = true then
        timeout_user
          { st with timers := st.timers.set id0 { t0 with fired := true } } t0.user
      else st)
    by_cases hlive : ¬ t0.cancelled = true ∧ ¬ t0.fired = true
    · rw [if_pos hlive]
      apply timersOK_timeout
      intro id t hg hc hf
      have hg2 : (st.timers.set id0 { t0 with fired := true }).get? id = some t := hg
      by_cases hii : id = id0
      · subst hii
        rw [get?_set_self, hg0] at hg2
        exfalso
        simp only [Option.map_some'] at hg2
        injection hg2 with hg2
        rw [← hg2] at hf
        exact Bool.true_eq_false.mp hf
      · rw [get?_set_ne _ _ _ _ fun he => hii he.symm] at hg2
        exact h id t hg2 hc hf
    · rw [if_neg hlive]
      exact h

/-- The store states reachable through the Session Store operations. -/
inductive ReachableStore : StoreState → Prop where
  | init : ReachableStore emptyStore
  | set : ∀ st u state data now, ReachableStore st →
      ReachableStore (set_user_state st u state data now)
  | clear : ∀ st u, ReachableStore st → ReachableStore (clear_user_state st u)
  | set_data : ∀ st u k v now, ReachableStore st →
      ReachableStore (set_user_data st u k v now)
  | sweep : ∀ st now max_age, ReachableStore st →
      ReachableStore (cleanup_inactive_sessions st now max_age)
  | fire : ∀ st id, ReachableStore st → ReachableStore (fireTimer st id)

theorem timersOK_reachable (st : StoreState) (h : ReachableStore st) :
    timersOK st := by
  induction h with
  | init =>
    intro id t hg hc hf
    exact absurd hg (by simp [emptyStore])
  | set st u state data now hr ih => exact timersOK_set st u state data now ih
  | clear st u hr ih => exact timersOK_clear st u ih
  | set_data st u k v now hr ih => exact timersOK_set_data st u k v now ih
  | sweep st now max_age hr ih => exact timersOK_cleanup st now max_age ih
  | fire st id hr ih => exact timersOK_fire st id ih

/-- Counterexample for C3 as stated: starting from the empty store (where the
whole invariant holds), one `set_user_data` call creates an `IDLE` session
carrying data, violating the "Idle sessions have an empty data mapping"
clause. -/
theorem session_invariant_counterexample :
    idleEmptyData emptyStore ∧
    ¬ idleEmptyData (set_user_data emptyStore "u" "k" "v" 0) := by
  constructor
  · intro u s hlk _
    simp [emptyStore, alLookup] at hlk
  · intro h
    have := h "u"
      { state := .idle, data := [("k", "v")], last_interaction := 0, timer := none }
      (by decide) rfl
    simp at this

/-- C3 (amended): every reachable store state keeps at most one live expiry
timer per session and no live timer for an `IDLE` session; `clear` and the
timeout callback leave the touched session `IDLE` with empty data and no
handle.  The "Idle implies empty data" clause itself is not preserved by
`set_user_data` (see the counterexample). -/
theorem session_store_invariants :
    (∀ st, ReachableStore st → atMostOneLiveTimer st ∧ idleNoLiveTimer st) ∧
    (∀ st u s, alLookup (clear_user_state st u).sessions u = some s →
      s.state = UserState.idle ∧ s.data = [] ∧ s.timer = none) ∧
    (∀ st u s, alLookup (timeout_user st u).sessions u = some s →
      s.state = UserState.idle ∧ s.data = [] ∧ s.timer = none) := by
  have hclear : ∀ st u s, alLookup (clear_user_state st u).sessions u = some s →
      s.state = UserState.idle ∧ s.data = [] ∧ s.timer = none := by
    intro st u s hlk
    unfold clear_user_state at hlk
    cases h0 : alLookup st.sessions u with
    | none =>
      rw [h0] at hlk
      exact absurd hlk (by rw [h0]; simp)
    | some session =>
      rw [h0] at hlk
      have : alLookup (alUpdate st.sessions u
          { session with state := UserState.idle, data := [], timer := none }) u =
          some { session with state := UserState.idle, data := [], timer := none } :=
        alLookup_update_self st.sessions u _
      rw [this] at hlk
      injection hlk with hlk
      rw [← hlk]
      exact ⟨rfl, rfl, rfl⟩
  refine ⟨?_, hclear, ?_⟩
  · intro st hr
    exact timersOK_implies st (timersOK_reachable st hr)
  · intro st u s hlk
    unfold timeout_user at hlk
    cases h0 : alLookup st.sessions u with
    | none =>
      rw [h0] at hlk
      exact absurd hlk (by rw [h0]; simp)
    | some session =>
      rw [h0] at hlk
      exact hclear st u s hlk

/-- Witness for C3 at a concrete reachable store. -/
theorem session_store_invariants_witness :
    (atMostOneLiveTimer (set_user_state emptyStore "u" .post_consultation [] 0) ∧
      idleNoLiveTimer (set_user_state emptyStore "u" .post_consultation [] 0)) ∧
    (alLookup (clear_user_state (set_user_state emptyStore "u" .post_consultation [] 0)
        "u").sessions "u" =
      some { state := UserState.idle, data := [], last_interaction := 0, timer := none } →
      UserState.idle = UserState.idle) := by
  constructor
  · exact session_store_invariants.1
      (set_user_state emptyStore "u" .post_consultation [] 0)
      (ReachableStore.set emptyStore "u" .post_consultation [] 0 ReachableStore.init)
  · intro h
    exact (session_store_invariants.2.1
      (set_user_state emptyStore "u" .post_consultation [] 0) "u" _ h).1

/-- Witness for C6 at a concrete failing routing outcome. -/
theorem error_policy_witness :
    ((handle_message_with (.error .attributeError)
      { text := "sí", number := "u", message_id := "m", name := "n",
        message_type := "text" } emptyHandler 0).2.filter Action.isSend =
      [Action.send_text "u" build_error_message]) ∧
    ("u" ∉ (handle_message_with (.error .attributeError)
      { text := "sí", number := "u", message_id := "m", name := "n",
        message_type := "text" } emptyHandler 0).1.processing_users) := by
  have h := error_policy (.error .attributeError)
    { text := "sí", number := "u", message_id := "m", name := "n",
      message_type := "text" } emptyHandler 0 (by decide)
  exact ⟨h.2 .attributeError rfl, h.1⟩

/-! ## C1 / C2 — the Post* states are broken by an `AttributeError` -/

/-- `is_rate_limited` never touches the session store. -/
theorem is_rate_limited_store (hs : HandlerState) (ctx : MessageContext)
    (now : ℚ) : (is_rate_limited hs ctx now).2.store = hs.store := by
  by_cases hp : ctx.number ∈ hs.processing_users
  · simp [is_rate_limited, hp]
  · cases hl : alLookup hs.last_responses (rate_key ctx) with
    | none => simp [is_rate_limited, hp, hl]
    | some ts => by_cases hlt : now - ts < 10 <;> simp [is_rate_limited, hp, hl, hlt]

/-- C1 (code bug): for a user stored in any `POST_*` state, routing the text
`"sí"` (or `"si"`) does not restart the corresponding `Awaiting*` flow — it
raises `AttributeError` (`UserState` enum members have no `startswith`), so
the top-level handler sends the generic error message and the session is left
in its `POST_*` state instead of transitioning. -/
theorem post_state_yes_raises :
    ∀ co ctx st hs (now : ℚ) (s : UserSession),
    ctx.message_type ≠ "image" →
    (ctx.text = "sí" ∨ ctx.text = "si") →
    alLookup st.sessions ctx.number = some s →
    (s.state = UserState.post_consultation ∨ s.state = UserState.post_status ∨
      s.state = UserState.post_order) →
    route_message co ctx st now = .error .attributeError ∧
    (hs.store = st → (is_rate_limited hs ctx now).1 = false →
      (handle_message co ctx hs now).2 =
        [.mark_read ctx.message_id, .send_text ctx.number build_error_message] ∧
      (handle_message co ctx hs now).1.store = st) := by
  intro co ctx st hs now s himg htext hlook hstate
  have hm : pyStartswith ctx.text "memoria:" = false := by
    rcases htext with h | h <;> rw [h] <;> decide
  have ha : pyStartswith ctx.text "agregar:" = false := by
    rcases htext with h | h <;> rw [h] <;> decide
  have hget : get_user_state st ctx.number = some s.state :=
    get_user_state_eq_of_lookup _ _ _ hlook
      (by rcases hstate with h | h | h <;> rw [h] <;> decide)
  have hroute : route_message co ctx st now = .error .attributeError := by
    unfold route_message
    simp only [himg, hm, ha, hget, Bool.or_self, Bool.false_eq_true, if_false,
      ite_false, if_neg himg]
    rcases hstate with h | h | h <;> rw [h] <;> rfl
  refine ⟨hroute, ?_⟩
  intro hstore hlim
  have hmsg : handle_message co ctx hs now =
      handle_message_with (.error .attributeError) ctx hs now := by
    unfold handle_message
    rw [hstore, hroute]
  have hpair : is_rate_limited hs ctx now = (false, (is_rate_limited hs ctx now).2) :=
    Prod.ext_iff.mpr ⟨hlim, rfl⟩
  rw [hmsg]
  unfold handle_message_with
  rw [hpair]
  exact ⟨rfl, by simp [is_rate_limited_store, hstore]⟩

/-- Witness for C1: a user in `POST_CONSULTATION` answering `"sí"` gets the
generic error message and stays in `POST_CONSULTATION`. -/
theorem post_state_yes_raises_witness :
    route_message noopCollaborators
      { text := "sí", number := "u", message_id := "m", name := "n",
        message_type := "text" }
      (set_user_state emptyStore "u" .post_consultation [] 0) 5 =
      .error .attributeError ∧
    (handle_message noopCollaborators
      { text := "sí", number := "u", message_id := "m", name := "n",
        message_type := "text" }
      ({ emptyHandler with store := set_user_state emptyStore "u" .post_consultation [] 0 }) 5).2 =
      [.mark_read "m", .send_text "u" build_error_message] := by
  have h := post_state_yes_raises noopCollaborators
    { text := "sí", number := "u", message_id := "m", name := "n",
      message_type := "text" }
    (set_user_state emptyStore "u" .post_consultation [] 0)
    ({ emptyHandler with store := set_user_state emptyStore "u" .post_consultation [] 0 }) 5
    { state := .post_consultation, data := [], last_interaction := 0, timer := some 0 }
    (by decide) (Or.inl rfl) (by decide) (Or.inl rfl)
  exact ⟨h.1, (h.2 rfl (by decide)).1⟩

/-- C2 (code bug): for a user stored in any `POST_*` state, routing the text
`"no"` does not produce the farewell message nor clear the session — the
`state.startswith` line raises `AttributeError` first, so the user receives
the generic error message and the session (state and data) is unchanged, not
`Idle`/empty. -/
theorem post_state_no_raises :
    ∀ co ctx st hs (now : ℚ) (s : UserSession),
    ctx.message_type ≠ "image" →
    ctx.text = "no" →
    alLookup st.sessions ctx.number = some s →
    (s.state = UserState.post_consultation ∨ s.state = UserState.post_status ∨
      s.state = UserState.post_order) →
    route_message co ctx st now = .error .attributeError ∧
    (hs.store = st → (is_rate_limited hs ctx now).1 = false →
      (handle_message co ctx hs now).2 =
        [.mark_read ctx.message_id, .send_text ctx.number build_error_message] ∧
      (handle_message co ctx hs now).1.store = st ∧
      alLookup (handle_message co ctx hs now).1.store.sessions ctx.number = some s) := by
  intro co ctx st hs now s himg htext hlook hstate
  have hm : pyStartswith ctx.text "memoria:" = false := by rw [htext]; decide
  have ha : pyStartswith ctx.text "agregar:" = false := by rw [htext]; decide
  have hget : get_user_state st ctx.number = some s.state :=
    get_user_state_eq_of_lookup _ _ _ hlook
      (by rcases hstate with h | h | h <;> rw [h] <;> decide)
  have hroute : route_message co ctx st now = .error .attributeError := by
    unfold route_message
    simp only [himg, hm, ha, hget, Bool.or_self, Bool.false_eq_true, if_false,
      ite_false, if_neg himg]
    rcases hstate with h | h | h <;> rw [h] <;> rfl
  refine ⟨hroute, ?_⟩
  intro hstore hlim
  have hmsg : handle_message co ctx hs now =
      handle_message_with (.error .attributeError) ctx hs now := by
    unfold handle_message
    rw [hstore, hroute]
  have hpair : is_rate_limited hs ctx now = (false, (is_rate_limited hs ctx now).2) :=
    Prod.ext_iff.mpr ⟨hlim, rfl⟩
  rw [hmsg]
  unfold handle_message_with
  rw [hpair]
  refine ⟨rfl, ?_, ?_⟩
  · simp [is_rate_limited_store, hstore]
  · have : (is_rate_limited hs ctx now).2.store = st := by
      rw [is_rate_limited_store, hstore]
    simp only [this]
    exact hlook

/-- Witness for C2: a user in `POST_STATUS` answering `"no"` gets the generic
error message, and the session is still the stored `POST_STATUS` one. -/
theorem post_state_no_raises_witness :
    route_message noopCollaborators
      { text := "no", number := "u", message_id := "m", name := "n",
        message_type := "text" }
      (set_user_state emptyStore "u" .post_status [] 0) 5 =
      .error .attributeError ∧
    (handle_message noopCollaborators
      { text := "no", number := "u", message_id := "m", name := "n",
        message_type := "text" }
      ({ emptyHandler with store := set_user_state emptyStore "u" .post_status [] 0 }) 5).2 =
      [.mark_read "m", .send_text "u" build_error_message] := by
  have h := post_state_no_raises noopCollaborators
    { text := "no", number := "u", message_id := "m", name := "n",
      message_type := "text" }
    (set_user_state emptyStore "u" .post_status [] 0)
    ({ emptyHandler with store := set_user_state emptyStore "u" .post_status [] 0 }) 5
    { state := .post_status, data := [], last_interaction := 0, timer := some 0 }
    (by decide) rfl (by decide) (Or.inr (Or.inl rfl))
  exact ⟨h.1, (h.2 rfl (by decide)).1⟩

/-- Witness for C9: `"orden abc"` in `AwaitingOrderNumber` is rejected and the
session is untouched. -/
theorem awaiting_order_number_route_witness :
    route_message noopCollaborators
      { text := "orden abc", number := "5215550000000", message_id := "wamid.1",
        name := "Cliente", message_type := "text" }
      (set_user_state emptyStore "5215550000000" .awaiting_order_number [] 0) 5 =
    .ok { responses := ["⚠️ El número de orden debe ser numérico. Intenta nuevamente."],
          store := set_user_state emptyStore "5215550000000" .awaiting_order_number [] 0,
          order_lookups := [] } :=
  (awaiting_order_number_route noopCollaborators
    { text := "orden abc", number := "5215550000000", message_id := "wamid.1",
      name := "Cliente", message_type := "text" }
    (set_user_state emptyStore "5215550000000" .awaiting_order_number [] 0) 5
    { state := .awaiting_order_number, data := [], last_interaction := 0, timer := some 0 }
    (by decide) (by decide) (by decide) (by decide) (by decide)).1 (by decide)

end Avans
